import Mathlib

/-!
# pyuv Handle lifecycle (src/handle.c)

A shallow embedding of the base `Handle` type of pyuv: the wrapper object, the
libuv handle it owns (the Native Resource Slot), the reference counts of the
Python objects involved, and a trace of the calls made to external
collaborators (libuv, the user's close callback, the Loop's exception sink).

Conventions.
* A C function that may crash (failed `ASSERT`, NULL dereference, access to
  freed memory) returns `Except Fault _`.
* A Python-level function returning `PyObject *` returns a `PyResult`:
  `returned v` is a new reference to `v`; `raised e` is a `NULL` return with the
  error indicator set to `e`.
* `PyGILState_Ensure` / `PyGILState_Release` bracket the two reactor callbacks;
  the model is sequential, so they have no counterpart.
-/

namespace Pyuv

/-! ## Data model -/

/-- Identities of the Python objects the handle code manipulates. -/
inductive PyObj where
  /-- the singleton `Py_None` -/
  | Py_None
  /-- the singletons `Py_True` / `Py_False` -/
  | Py_Bool (b : Bool)
  /-- the `Handle` wrapper under study -/
  | self
  /-- a `Loop` object -/
  | loop (id : Nat)
  /-- any other object; `callable` is what `PyCallable_Check` answers for it -/
  | obj (id : Nat) (callable : Bool)
  deriving DecidableEq, Repr

/-- Python exceptions raised by the handle methods. -/
inductive PyExc where
  | NotInitializedError
  | HandleClosedError
  | TypeError
  deriving DecidableEq, Repr

/-- Outcome of a function returning `PyObject *`. -/
inductive PyResult where
  | returned (v : PyObj)
  | raised (e : PyExc)
  deriving DecidableEq, Repr

/-- C-level crashes. -/
inductive Fault where
  | assertion_failed
  | null_deref
  | use_after_free
  deriving DecidableEq, Repr

/-- The two completion functions handed to `uv_close` (values of type `uv_close_cb`). -/
inductive close_cb_t where
  | on_handle_close
  | on_handle_dealloc_close
  deriving DecidableEq, Repr

/-- Values of `self->uv_handle`: `NULL`, or the address of the slot allocated by the
concrete kind. -/
inductive uv_ptr where
  | NULL
  | slot
  deriving DecidableEq, Repr

/-- Values of `handle->data`: `NULL`, or the address of the wrapper. -/
inductive data_ptr where
  | NULL
  | wrapper
  deriving DecidableEq, Repr

/-- Calls made to external collaborators, in program order. -/
inductive Event where
  /-- Call `uv_close(handle, cb)` -/
  | uv_close (cb : close_cb_t)
  /-- Call `uv_ref(handle)` -/
  | uv_ref
  /-- Call `uv_unref(handle)` -/
  | uv_unref
  /-- Call `PyObject_CallFunctionObjArgs(callable, args..., NULL)` entering user code -/
  | call (callable : PyObj) (args : List PyObj)
  /-- Call `handle_uncaught_exception(loop)`; `loop_refcnt` is the reference count the
  object passed as `loop` has at the moment the handler is entered (0 for NULL) -/
  | uncaught (loop : Option PyObj) (loop_refcnt : Int)
  /-- Call `PyObject_ClearWeakRefs(self)` -/
  | clear_weakrefs
  deriving DecidableEq, Repr

/-- The Native Resource Slot (`uv_handle_t`), as far as the handle code and the reactor
use it. -/
structure uv_handle_t where
  /-- back-reference to the wrapper (`void *data`) -/
  data : data_ptr
  /-- what `uv_is_closing` reports (flags `UV_CLOSING | UV_CLOSED`) -/
  closing : Bool
  /-- what `uv_is_active` reports -/
  active : Bool
  /-- whether the handle keeps the loop alive (`uv_ref` / `uv_unref`) -/
  referenced : Bool
  /-- the completion registered by `uv_close` and not yet delivered -/
  close_cb : Option close_cb_t
  deriving DecidableEq, Repr

/-- The fields of the `Handle` struct used by handle.c (after `PyObject_HEAD`). -/
structure Handle where
  on_close_cb : Option PyObj
  loop : Option PyObj
  dict : Option PyObj
  weakreflist : Option PyObj
  initialized : Bool
  uv_handle : uv_ptr
  deriving DecidableEq, Repr

/-- The whole state: wrapper memory, slot memory, reference counts, trace. -/
@[ext]
structure World where
  /-- the wrapper's fields -/
  h : Handle
  /-- whether `tp_free` has released the wrapper's storage -/
  h_freed : Bool
  /-- the slot's contents -/
  slot : uv_handle_t
  /-- how many times `PyMem_Free` was applied to the slot -/
  slot_frees : Nat
  /-- the field `ob_refcnt` of every object (the wrapper's is `ob_refcnt .self`) -/
  ob_refcnt : PyObj → Int
  /-- calls to external collaborators so far -/
  trace : List Event
  /-- control is inside the user's close callback, called from line 22 of `on_handle_close` -/
  cb_running : Bool
  /-- build parameter: whether a failed `ASSERT` aborts (otherwise it is compiled out) -/
  asserts : Bool

/-! ## CPython primitives -/

/-- The macro `Py_INCREF(o)`. -/
def Py_INCREF (w : World) (o : PyObj) : World :=
  { w with ob_refcnt := Function.update w.ob_refcnt o (w.ob_refcnt o + 1) }

/-- The count decrement of `Py_DECREF(o)`; the deallocation of objects other than the
wrapper is outside the model. -/
def refcnt_dec (w : World) (o : PyObj) : World :=
  { w with ob_refcnt := Function.update w.ob_refcnt o (w.ob_refcnt o - 1) }

/-- The macro `Py_XDECREF(p)` for a pointer to an object other than the wrapper. -/
def Py_XDECREF (w : World) (p : Option PyObj) : World :=
  match p with
  | none => w
  | some o => refcnt_dec w o

/-- The macro `Py_RETURN_NONE`: a new reference to `Py_None` is returned. -/
def Py_RETURN_NONE (w : World) : PyResult × World :=
  (.returned .Py_None, Py_INCREF w .Py_None)

/-- The function `PyBool_FromLong(v)`: a new reference to `Py_True` or `Py_False`. -/
def PyBool_FromLong (w : World) (v : Bool) : PyResult × World :=
  (.returned (.Py_Bool v), Py_INCREF w (.Py_Bool v))

/-- The function `PyCallable_Check(o)`. -/
def PyCallable_Check (o : PyObj) : Bool :=
  match o with
  | .obj _ c => c
  | _ => false

/-- The call `PyArg_ParseTuple(args, "|O:close", &callback)`: at most one positional
argument, stored (borrowed) into `callback`, which keeps its initial value when the
tuple is empty; `none` is the failure return. -/
def PyArg_ParseTuple_optO (args : List PyObj) (callback : PyObj) : Option PyObj :=
  match args with
  | [] => some callback
  | [a] => some a
  | _ => none

/-- The macro `ASSERT(x)`, whose definition is not in src/: it aborts when `x` is false,
unless the build compiles assertions out (`asserts = false`), in which case execution
continues. -/
def ASSERT (w : World) (x : Bool) : Except Fault Unit :=
  if x then .ok () else if w.asserts then .error .assertion_failed else .ok ()

/-! ## libuv (external collaborator) -/

/-- Reading or writing through a `uv_handle_t *`. -/
def deref (w : World) (p : uv_ptr) : Except Fault uv_handle_t :=
  match p with
  | .NULL => .error .null_deref
  | .slot => if w.slot_frees = 0 then .ok w.slot else .error .use_after_free

/-- Modelled from the spec: libuv's `uv_is_closing`, "the Native Resource Slot's own
is-closing flag, which the reactor maintains authoritatively". -/
def uv_is_closing (w : World) (p : uv_ptr) : Except Fault Bool :=
  match deref w p with
  | .error f => .error f
  | .ok s => .ok s.closing

/-- Modelled from the spec: libuv's `uv_is_active`, "the reactor reports the underlying
resource as actively generating events". -/
def uv_is_active (w : World) (p : uv_ptr) : Except Fault Bool :=
  match deref w p with
  | .error f => .error f
  | .ok s => .ok s.active

/-- Modelled from the spec: libuv's `uv_close`: marks the slot closing inside the reactor
and registers the completion, which is delivered later, never inside this call. -/
def uv_close (w : World) (p : uv_ptr) (cb : close_cb_t) : Except Fault World :=
  match deref w p with
  | .error f => .error f
  | .ok s =>
    .ok { w with slot := { s with closing := true, close_cb := some cb },
                 trace := w.trace ++ [.uv_close cb] }

/-- Modelled from the spec: libuv's `uv_ref`: the handle counts for keeping the loop running. -/
def uv_ref (w : World) (p : uv_ptr) : Except Fault World :=
  match deref w p with
  | .error f => .error f
  | .ok s => .ok { w with slot := { s with referenced := true }, trace := w.trace ++ [.uv_ref] }

/-- Modelled from the spec: libuv's `uv_unref`: the handle no longer keeps the loop running. -/
def uv_unref (w : World) (p : uv_ptr) : Except Fault World :=
  match deref w p with
  | .error f => .error f
  | .ok s => .ok { w with slot := { s with referenced := false }, trace := w.trace ++ [.uv_unref] }

/-- The function `PyMem_Free(p)`: no operation on NULL, otherwise the slot is released. -/
def PyMem_Free (w : World) (p : uv_ptr) : World :=
  match p with
  | .NULL => w
  | .slot => { w with slot_frees := w.slot_frees + 1 }

/-! ## Parts of pyuv that handle.c uses and src/ does not contain -/

/-- Modelled from the spec: the macro `RAISE_IF_HANDLE_NOT_INITIALIZED(obj, retval)`, absent
from src/: the `initialized` flag "gates every operation that touches native_resource";
when it is false the operation fails with the not-initialized error. -/
def RAISE_IF_HANDLE_NOT_INITIALIZED (w : World) : Option PyExc :=
  if w.h.initialized then none else some .NotInitializedError

/-- Modelled from the spec: the macro `RAISE_IF_HANDLE_CLOSED(obj, exc_type, retval)`, absent
from src/: closing/closed is "derived, not stored — computed by querying the Native Resource
Slot's own is-closing flag"; when set the operation fails with `exc_type`. -/
def RAISE_IF_HANDLE_CLOSED (w : World) (exc_type : PyExc) : Except Fault (Option PyExc) :=
  match uv_is_closing w w.h.uv_handle with
  | .error f => .error f
  | .ok true => .ok (some exc_type)
  | .ok false => .ok none

/-- Modelled from the spec: the helper `handle_uncaught_exception(loop)`, absent from src/:
the pending exception is "captured and handed to" the Loop's uncaught-exception sink. The
event records the Loop it is called for and the reference count that Loop has when the
handler is entered, so that the trace tells whether the handle's reference to the Loop was
still held at that moment. -/
def handle_uncaught_exception (w : World) (loop : Option PyObj) : World :=
  { w with trace := w.trace ++ [.uncaught loop (match loop with
      | none => 0
      | some o => w.ob_refcnt o)] }

/-! ## handle.c -/

/-- Lines 2-7 of handle.c: `free_handle`. -/
def free_handle (w : World) (handle : uv_ptr) : Except Fault World :=
  match ASSERT w (handle != .NULL) with
  | .error f => .error f
  | .ok _ => .ok (PyMem_Free w handle)

/-- Lines 161-168 of handle.c: `Handle_tp_clear`, three `Py_CLEAR`s. The wrapper's own
count is zero when this runs from `Handle_tp_dealloc`, so no decrement here re-enters
deallocation. -/
def Handle_tp_clear (w : World) : World :=
  let w1 := Py_XDECREF { w with h := { w.h with on_close_cb := none } } w.h.on_close_cb
  let w2 := Py_XDECREF { w1 with h := { w1.h with loop := none } } w1.h.loop
  Py_XDECREF { w2 with h := { w2.h with dict := none } } w2.h.dict

/-- Lines 171-188 of handle.c: `Handle_tp_dealloc`. -/
def Handle_tp_dealloc (w : World) : Except Fault World :=
  match ASSERT w (w.h.uv_handle != .NULL) with
  | .error f => .error f
  | .ok _ =>
  -- self->uv_handle->data = NULL;
  match deref w w.h.uv_handle with
  | .error f => .error f
  | .ok s =>
  let w1 := { w with slot := { s with data := .NULL } }
  -- if (self->initialized && !uv_is_closing(self->uv_handle))
  let closeOrFree : Except Fault World :=
    if w1.h.initialized then
      match uv_is_closing w1 w1.h.uv_handle with
      | .error f => .error f
      | .ok false => uv_close w1 w1.h.uv_handle .on_handle_dealloc_close
      | .ok true => free_handle w1 w1.h.uv_handle
    else free_handle w1 w1.h.uv_handle
  match closeOrFree with
  | .error f => .error f
  | .ok w2 =>
  let w3 :=
    if w2.h.weakreflist != none then
      { w2 with h := { w2.h with weakreflist := none }, trace := w2.trace ++ [.clear_weakrefs] }
    else w2
  let w4 := Handle_tp_clear w3
  .ok { w4 with h_freed := true }

/-- The macro `Py_DECREF(self)` applied to the wrapper: `tp_dealloc` runs when the count
reaches zero. -/
def Py_DECREF_self (w : World) : Except Fault World :=
  let w1 := refcnt_dec w .self
  if w1.ob_refcnt .self = 0 then Handle_tp_dealloc w1 else .ok w1

/-- The macro `Py_DECREF(p)` for a field of the wrapper: `NULL` is dereferenced. -/
def Py_DECREF (w : World) (p : Option PyObj) : Except Fault World :=
  match p with
  | none => .error .null_deref
  | some .self => Py_DECREF_self w
  | some o => .ok (refcnt_dec w o)

/-- Lines 13-22 of handle.c: `on_handle_close` up to the point where control is inside the
user's callback. `PyObject_CallFunctionObjArgs(NULL, ...)` does not enter user code and returns
NULL; line 29 then dereferences the NULL callback, which is the fault reported here. -/
def on_handle_close_enter (w : World) (handle : uv_ptr) : Except Fault World :=
  match ASSERT w (handle != .NULL) with
  | .error f => .error f
  | .ok _ =>
  -- self = (Handle *)handle->data;
  match deref w handle with
  | .error f => .error f
  | .ok s =>
  match ASSERT w (s.data != .NULL) with
  | .error f => .error f
  | .ok _ =>
  match s.data with
  | .NULL => .error .null_deref
  | .wrapper =>
  if w.h_freed then .error .use_after_free else
  match w.h.on_close_cb with
  | none => .error .null_deref
  | some cb =>
    if cb != .Py_None then
      .ok { w with trace := w.trace ++ [.call cb [.self]], cb_running := true }
    else .ok w

/-- Lines 22-39 of handle.c: `on_handle_close` from the return of the user's callback (when
it was called) to the end. `result` is what the call returned: `none` is NULL (the callback
raised), `some r` a new reference to `r`. -/
def on_handle_close_leave (w : World) (result : Option PyObj) : Except Fault World :=
  let w1 : World :=
    if w.cb_running then
      let wr := { w with cb_running := false }
      match result with
      | none => handle_uncaught_exception wr wr.h.loop
      | some r => Py_XDECREF (Py_INCREF wr r) (some r)
    else w
  -- Py_DECREF(self->on_close_cb); self->on_close_cb = NULL;
  match Py_DECREF w1 w1.h.on_close_cb with
  | .error f => .error f
  | .ok w2 =>
  let w3 := { w2 with h := { w2.h with on_close_cb := none } }
  -- Py_DECREF(self->loop); self->loop = (Loop *)Py_None; Py_INCREF(Py_None);
  match Py_DECREF w3 w3.h.loop with
  | .error f => .error f
  | .ok w4 =>
  let w5 := Py_INCREF { w4 with h := { w4.h with loop := some .Py_None } } .Py_None
  -- Py_DECREF(self);
  Py_DECREF_self w5

/-- Lines 10-40 of handle.c: `on_handle_close`; `result` is what the user's callback
returns if it is called. -/
def on_handle_close (w : World) (handle : uv_ptr) (result : Option PyObj) : Except Fault World :=
  match on_handle_close_enter w handle with
  | .error f => .error f
  | .ok w1 => on_handle_close_leave w1 result

/-- Lines 43-51 of handle.c: `on_handle_dealloc_close`. -/
def on_handle_dealloc_close (w : World) (handle : uv_ptr) : Except Fault World :=
  free_handle w handle

/-- Lines 54-63 of handle.c: `initialize_handle`. -/
def initialize_handle (w : World) (loop : PyObj) : World :=
  let tmp := w.h.loop
  let w1 := Py_INCREF w loop
  let w2 := { w1 with h := { w1.h with loop := some loop } }
  let w3 := Py_XDECREF w2 tmp
  { w3 with h := { w3.h with initialized := true } }

/-- Lines 66-73 of handle.c: `Handle_func_ref`. -/
def Handle_func_ref (w : World) : Except Fault (PyResult × World) :=
  match RAISE_IF_HANDLE_NOT_INITIALIZED w with
  | some e => .ok (.raised e, w)
  | none =>
  match RAISE_IF_HANDLE_CLOSED w .HandleClosedError with
  | .error f => .error f
  | .ok (some e) => .ok (.raised e, w)
  | .ok none =>
  match uv_ref w w.h.uv_handle with
  | .error f => .error f
  | .ok w1 => .ok (Py_RETURN_NONE w1)

/-- Lines 76-83 of handle.c: `Handle_func_unref`. -/
def Handle_func_unref (w : World) : Except Fault (PyResult × World) :=
  match RAISE_IF_HANDLE_NOT_INITIALIZED w with
  | some e => .ok (.raised e, w)
  | none =>
  match RAISE_IF_HANDLE_CLOSED w .HandleClosedError with
  | .error f => .error f
  | .ok (some e) => .ok (.raised e, w)
  | .ok none =>
  match uv_unref w w.h.uv_handle with
  | .error f => .error f
  | .ok w1 => .ok (Py_RETURN_NONE w1)

/-- Lines 86-112 of handle.c: `Handle_func_close`; `args` is the positional-argument tuple. -/
def Handle_func_close (w : World) (args : List PyObj) : Except Fault (PyResult × World) :=
  match RAISE_IF_HANDLE_NOT_INITIALIZED w with
  | some e => .ok (.raised e, w)
  | none =>
  match RAISE_IF_HANDLE_CLOSED w .HandleClosedError with
  | .error f => .error f
  | .ok (some e) => .ok (.raised e, w)
  | .ok none =>
  match PyArg_ParseTuple_optO args .Py_None with
  | none => .ok (.raised .TypeError, w)
  | some callback =>
  if callback != .Py_None && !PyCallable_Check callback then
    .ok (.raised .TypeError, w)
  else
    let w1 := Py_INCREF w callback
    let w2 := { w1 with h := { w1.h with on_close_cb := some callback } }
    let w3 := Py_INCREF w2 .self
    match uv_close w3 w3.h.uv_handle .on_handle_close with
    | .error f => .error f
    | .ok w4 => .ok (Py_RETURN_NONE w4)

/-- Lines 115-123 of handle.c: `Handle_active_get`. -/
def Handle_active_get (w : World) : Except Fault (PyResult × World) :=
  match RAISE_IF_HANDLE_NOT_INITIALIZED w with
  | some e => .ok (.raised e, w)
  | none =>
  match uv_is_active w w.h.uv_handle with
  | .error f => .error f
  | .ok b => .ok (PyBool_FromLong w b)

/-- Lines 126-134 of handle.c: `Handle_closed_get`. -/
def Handle_closed_get (w : World) : Except Fault (PyResult × World) :=
  match RAISE_IF_HANDLE_NOT_INITIALIZED w with
  | some e => .ok (.raised e, w)
  | none =>
  match uv_is_closing w w.h.uv_handle with
  | .error f => .error f
  | .ok b => .ok (PyBool_FromLong w b)

/-- Lines 137-148 of handle.c: `Handle_tp_new`: `PyType_GenericNew` returns zero-filled storage with
reference count one, or NULL (`alloc_ok = false`). `env` supplies everything that is not
the new wrapper. -/
def Handle_tp_new (env : World) (alloc_ok : Bool) : Option World :=
  if !alloc_ok then none
  else
    some { env with
      h := { on_close_cb := none, loop := none, dict := none,
             weakreflist := none, initialized := false, uv_handle := .NULL },
      h_freed := false,
      ob_refcnt := Function.update env.ob_refcnt .self 1 }

/-! ## Environment: the reactor, the concrete kind, application code -/

/-- Modelled from the spec: the Reactor Loop processing closing handles on a loop iteration:
it "invokes a close-completion callback exactly once per resource, on a loop iteration
strictly after a close was requested". `result` is what the user's callback returns if it
is called. -/
def uv_run_close (w : World) (result : Option PyObj) : Except Fault World :=
  match w.slot.close_cb with
  | none => .ok w
  | some cb =>
    match deref w .slot with
    | .error f => .error f
    | .ok s =>
      let w1 := { w with slot := { s with close_cb := none } }
      match cb with
      | .on_handle_close => on_handle_close w1 .slot result
      | .on_handle_dealloc_close => on_handle_dealloc_close w1 .slot

/-- Modelled from the spec: the Concrete Handle Kind's setup, absent from src/: it
"allocates and initializes a Native Resource Slot through the Loop, then calls into this
core to record loop ownership"; the slot contains "a back-reference to its wrapper and a
closing flag". -/
def kind_init (w : World) (loop : PyObj) : World :=
  initialize_handle
    { w with h := { w.h with uv_handle := .slot },
             slot := { data := .wrapper, closing := false, active := false,
                       referenced := true, close_cb := none } }
    loop

/-- The methods and getters of `Handle_tp_methods` / `Handle_tp_getsets` that touch the slot. -/
inductive Op where
  | close (args : List PyObj)
  | ref
  | unref
  | active_get
  | closed_get
  deriving DecidableEq, Repr

/-- Dispatch of a method or getter call on the wrapper. -/
def Op.exec (w : World) : Op → Except Fault (PyResult × World)
  | .close args => Handle_func_close w args
  | .ref => Handle_func_ref w
  | .unref => Handle_func_unref w
  | .active_get => Handle_active_get w
  | .closed_get => Handle_closed_get w

/-- What may happen after a close request: further calls on the wrapper, and reactor
iterations. -/
inductive Later where
  | call (op : Op)
  | reactor (result : Option PyObj)
  deriving DecidableEq, Repr

/-- One later event; a Python exception raised by a call is caught by the caller. -/
def World.later_step (w : World) : Later → Except Fault World
  | .call op =>
    match op.exec w with
    | .error f => .error f
    | .ok (_, w1) => .ok w1
  | .reactor result => uv_run_close w result

/-- A sequence of later events. -/
def World.later (w : World) : List Later → Except Fault World
  | [] => .ok w
  | e :: es =>
    match w.later_step e with
    | .error f => .error f
    | .ok w1 => w1.later es

/-- Number of `uv_close` requests issued so far. -/
def uv_close_requests (w : World) : Nat :=
  w.trace.countP fun e => match e with
    | .uv_close _ => true
    | _ => false

/-- Invocations of user callables so far, in order. -/
def user_calls (w : World) : List Event :=
  w.trace.filter fun e => match e with
    | .call _ _ => true
    | _ => false

/-- Exceptions handed to a Loop's uncaught-exception handler so far, in order. -/
def uncaught_reports (w : World) : List Event :=
  w.trace.filter fun e => match e with
    | .uncaught _ _ => true
    | _ => false

/-- The wrapper together with the references application code owns on it. -/
structure Sys where
  w : World
  /-- number of references to the wrapper owned by application code -/
  app_refs : Nat
  /-- the process has crashed with this fault -/
  crashed : Option Fault

/-- Lifecycle steps. -/
inductive Act where
  /-- the concrete kind completes setup -/
  | kind_init (loop : Nat)
  /-- application code stores another reference to the wrapper -/
  | app_incref
  /-- application code drops one of its references -/
  | app_decref
  /-- application code calls a method or getter -/
  | call (op : Op)
  /-- the reactor starts delivering the pending close completion -/
  | reactor
  /-- the user's close callback, running inside `on_handle_close`, returns -/
  | cb_return (result : Option PyObj)
  deriving DecidableEq, Repr

/-- Application code can reach the wrapper: it owns a reference, or it is running as the
close callback, which receives the wrapper as argument. -/
def Sys.app_can_reach (s : Sys) : Bool :=
  !s.w.h_freed && (decide (0 < s.app_refs) || s.w.cb_running)

/-- Record the outcome of a step that may crash. -/
def Sys.settle (s : Sys) (r : Except Fault World) (app_refs : Nat) : Sys :=
  match r with
  | .error f => { s with crashed := some f }
  | .ok w => { s with w := w, app_refs := app_refs }

/-- One lifecycle step; a step that is not enabled leaves the state as it is. -/
def Sys.step (s : Sys) (a : Act) : Sys :=
  if s.crashed.isSome then s else
  match a with
  | .kind_init l =>
    if s.app_can_reach && !s.w.h.initialized && s.w.h.uv_handle == .NULL then
      { s with w := kind_init s.w (.loop l) }
    else s
  | .app_incref =>
    if s.app_can_reach then
      { s with w := Py_INCREF s.w .self, app_refs := s.app_refs + 1 }
    else s
  | .app_decref =>
    if !s.w.h_freed && decide (0 < s.app_refs) then
      s.settle (Py_DECREF_self s.w) (s.app_refs - 1)
    else s
  | .call op =>
    if s.app_can_reach then
      match op.exec s.w with
      | .error f => { s with crashed := some f }
      | .ok (_, w1) => { s with w := w1 }
    else s
  | .reactor =>
    if s.w.cb_running then s else
    match s.w.slot.close_cb with
    | none => s
    | some cb =>
      match deref s.w .slot with
      | .error f => { s with crashed := some f }
      | .ok sl =>
        let w1 := { s.w with slot := { sl with close_cb := none } }
        match cb with
        | .on_handle_dealloc_close => s.settle (on_handle_dealloc_close w1 .slot) s.app_refs
        | .on_handle_close =>
          match on_handle_close_enter w1 .slot with
          | .error f => { s with crashed := some f }
          | .ok w2 =>
            if w2.cb_running then { s with w := w2 }
            else s.settle (on_handle_close_leave w2 none) s.app_refs
  | .cb_return result =>
    if s.w.cb_running then s.settle (on_handle_close_leave s.w result) s.app_refs else s

/-- A run of lifecycle steps. -/
def Sys.run (s : Sys) (acts : List Act) : Sys :=
  acts.foldl Sys.step s

/-- The state before any wrapper exists: nothing allocated, empty trace. -/
def World.boot (asserts : Bool) (rc : PyObj → Int) : World :=
  { h := { on_close_cb := none, loop := none, dict := none,
           weakreflist := none, initialized := false, uv_handle := .NULL },
    h_freed := false,
    slot := { data := .NULL, closing := false, active := false,
              referenced := false, close_cb := none },
    slot_frees := 0,
    ob_refcnt := rc,
    trace := [],
    cb_running := false,
    asserts := asserts }

/-- The start of a handle's life: `Handle_tp_new` has returned the wrapper to application
code, which owns the one reference. -/
def Sys.init (asserts : Bool) (rc : PyObj → Int) : Sys :=
  { w := (Handle_tp_new (World.boot asserts rc) true).getD (World.boot asserts rc),
    app_refs := 1,
    crashed := none }

/-- A close request made through `close()` is outstanding: registered with the reactor and
not yet completed, the user's callback possibly running. -/
def World.close_outstanding (w : World) : Bool :=
  w.slot.close_cb == some .on_handle_close || w.cb_running

/-- State of a handle after a successful `close()` while its caller keeps a reference:
closing, one `uv_close` request made, and either the completion has been delivered or it is
pending with the pin in place. -/
def ClosedInv (w : World) : Prop :=
  w.h.initialized = true ∧ w.h.uv_handle = .slot ∧ w.slot_frees = 0 ∧ w.slot.closing = true ∧
  w.h_freed = false ∧ w.cb_running = false ∧ uv_close_requests w = 1 ∧
  (w.slot.close_cb = none ∧ 1 ≤ w.ob_refcnt .self ∨
   w.slot.close_cb = some .on_handle_close ∧ w.slot.data = .wrapper ∧
     (∃ cb, w.h.on_close_cb = some cb ∧ (cb = .Py_None ∨ PyCallable_Check cb = true)) ∧
     (∃ l, w.h.loop = some (.loop l)) ∧ 2 ≤ w.ob_refcnt .self)

/-! ## Sample states -/

/-- A wrapper fresh from `Handle_tp_new`; every other object has count one. -/
def sample_new : World :=
  (Sys.init true fun _ => 1).w

/-- An initialized, active handle on loop 0, one reference held by application code. -/
def sample_active : World :=
  kind_init sample_new (.loop 0)

/-- A callable object. -/
def sample_cb : PyObj :=
  .obj 7 true

/-- The sample handle after `close(sample_cb)`. -/
def sample_closing : World :=
  match Handle_func_close sample_active [sample_cb] with
  | .ok (_, w) => w
  | .error _ => sample_active

/-! ## Lifecycle invariant -/

/-- Two worlds agree on everything the lifecycle phases depend on. -/
def World.agree (w' w : World) : Prop :=
  w'.h = w.h ∧ w'.h_freed = w.h_freed ∧ w'.slot.data = w.slot.data ∧
  w'.slot.closing = w.slot.closing ∧ w'.slot.close_cb = w.slot.close_cb ∧
  w'.slot_frees = w.slot_frees ∧ w'.ob_refcnt .self = w.ob_refcnt .self ∧
  w'.cb_running = w.cb_running

/-- The lifecycle phases of a handle; `n` is the number of references application code
owns. In order: created, active, close pending (completion registered, or the user's
callback running), closed, reclaimed with the implicit close pending, reclaimed with the
slot freed. -/
def LifeInv (w : World) (n : Nat) : Prop :=
  (w.h_freed = false ∧ w.slot_frees = 0 ∧ w.h.initialized = false ∧ w.h.uv_handle = .NULL ∧
    w.h.loop = none ∧ w.slot.close_cb = none ∧ w.cb_running = false ∧ 1 ≤ n ∧
    w.ob_refcnt .self = n) ∨
  (w.h_freed = false ∧ w.slot_frees = 0 ∧ w.h.initialized = true ∧ w.h.uv_handle = .slot ∧
    w.slot.data = .wrapper ∧ w.slot.closing = false ∧ w.slot.close_cb = none ∧
    w.cb_running = false ∧ 1 ≤ n ∧ w.ob_refcnt .self = n ∧ ∃ l, w.h.loop = some (.loop l)) ∨
  (w.h_freed = false ∧ w.slot_frees = 0 ∧ w.h.initialized = true ∧ w.h.uv_handle = .slot ∧
    w.slot.data = .wrapper ∧ w.slot.closing = true ∧
    (w.slot.close_cb = some .on_handle_close ∧ w.cb_running = false ∨
      w.slot.close_cb = none ∧ w.cb_running = true) ∧
    w.ob_refcnt .self = n + 1 ∧
    (∃ cb, w.h.on_close_cb = some cb ∧ (cb = .Py_None ∨ PyCallable_Check cb = true)) ∧
    ∃ l, w.h.loop = some (.loop l)) ∨
  (w.h_freed = false ∧ w.slot_frees = 0 ∧ w.h.initialized = true ∧ w.h.uv_handle = .slot ∧
    w.slot.closing = true ∧ w.slot.close_cb = none ∧ w.cb_running = false ∧ 1 ≤ n ∧
    w.ob_refcnt .self = n) ∨
  (w.h_freed = true ∧ w.slot_frees = 0 ∧ w.slot.close_cb = some .on_handle_dealloc_close ∧
    w.cb_running = false ∧ n = 0) ∨
  (w.h_freed = true ∧ w.slot_frees = 1 ∧ w.slot.close_cb = none ∧ w.cb_running = false ∧
    n = 0)

/-- The lifecycle invariant of a system state: the handle is in one of the phases, and a
crash can only have come from deallocating a never-initialized wrapper. -/
def SysInv (s : Sys) : Prop :=
  LifeInv s.w s.app_refs ∧ (s.crashed ≠ none → s.w.h.initialized = false)

/-! ## Execution lemmas -/

/-- A valid close callback is `None` or a callable object; in particular it is neither the
wrapper nor a Loop. -/
theorem callable_cases (cb : PyObj) (hcb : cb = .Py_None ∨ PyCallable_Check cb = true) :
    cb = .Py_None ∨ ∃ n, cb = .obj n true := by
  rcases hcb with h | h
  · exact Or.inl h
  · cases cb <;> simp_all [PyCallable_Check]

/-- A valid argument tuple for `close`, as `PyArg_ParseTuple` reads it. -/
theorem parse_valid (args : List PyObj) (cb : PyObj)
    (hargs : args = [] ∧ cb = .Py_None ∨ args = [cb]) :
    PyArg_ParseTuple_optO args .Py_None = some cb := by
  rcases hargs with ⟨rfl, rfl⟩ | rfl <;> rfl

/-- The count of `x` after decrementing `o`. -/
theorem refcnt_dec_apply (w : World) (o x : PyObj) :
    (refcnt_dec w o).ob_refcnt x = w.ob_refcnt x - (if x = o then 1 else 0) := by
  by_cases h : x = o <;> simp [refcnt_dec, Function.update, h]

/-- Decrementing a count leaves the wrapper's fields alone. -/
theorem refcnt_dec_h (w : World) (o : PyObj) : (refcnt_dec w o).h = w.h := rfl

/-- The function `Handle_tp_clear` in closed form. -/
theorem Handle_tp_clear_eq (w : World) :
    Handle_tp_clear w =
      { w with
        h := { w.h with on_close_cb := none, loop := none, dict := none },
        ob_refcnt := fun x => w.ob_refcnt x
          - (if w.h.on_close_cb = some x then 1 else 0) - (if w.h.loop = some x then 1 else 0)
          - (if w.h.dict = some x then 1 else 0) } := by
  apply World.ext
  case ob_refcnt =>
    funext x
    cases h1 : w.h.on_close_cb <;> cases h2 : w.h.loop <;> cases h3 : w.h.dict <;>
    simp [Handle_tp_clear, Py_XDECREF, refcnt_dec_apply, refcnt_dec_h, h1, h2, h3, eq_comm]
  all_goals
    cases h1 : w.h.on_close_cb <;> cases h2 : w.h.loop <;> cases h3 : w.h.dict <;>
    simp [Handle_tp_clear, Py_XDECREF, refcnt_dec, h1, h2, h3]

/-- Running `Handle_tp_dealloc` on an initialized handle that is already closing: the slot
is freed. -/
theorem dealloc_exec_closing (w : World)
    (hinit : w.h.initialized = true) (hptr : w.h.uv_handle = .slot)
    (hlive : w.slot_frees = 0) (hcl : w.slot.closing = true) :
    Handle_tp_dealloc w =
      .ok { w with
        h := { w.h with on_close_cb := none, loop := none, dict := none, weakreflist := none },
        h_freed := true,
        slot := { w.slot with data := .NULL },
        slot_frees := 1,
        trace := w.trace ++ (if w.h.weakreflist.isSome then [.clear_weakrefs] else []),
        ob_refcnt := fun x => w.ob_refcnt x
          - (if w.h.on_close_cb = some x then 1 else 0) - (if w.h.loop = some x then 1 else 0)
          - (if w.h.dict = some x then 1 else 0) } := by
  cases hwk : w.h.weakreflist <;>
  simp [Handle_tp_dealloc, ASSERT, deref, uv_is_closing, free_handle, PyMem_Free, hinit, hptr,
    hlive, hcl, hwk, Handle_tp_clear_eq]

/-- Running `Handle_tp_dealloc` on a handle never initialized whose slot is allocated: the
slot is freed at once. -/
theorem dealloc_exec_uninit (w : World)
    (hinit : w.h.initialized = false) (hptr : w.h.uv_handle = .slot)
    (hlive : w.slot_frees = 0) :
    Handle_tp_dealloc w =
      .ok { w with
        h := { w.h with on_close_cb := none, loop := none, dict := none, weakreflist := none },
        h_freed := true,
        slot := { w.slot with data := .NULL },
        slot_frees := 1,
        trace := w.trace ++ (if w.h.weakreflist.isSome then [.clear_weakrefs] else []),
        ob_refcnt := fun x => w.ob_refcnt x
          - (if w.h.on_close_cb = some x then 1 else 0) - (if w.h.loop = some x then 1 else 0)
          - (if w.h.dict = some x then 1 else 0) } := by
  cases hwk : w.h.weakreflist <;>
  simp [Handle_tp_dealloc, ASSERT, deref, free_handle, PyMem_Free, hinit, hptr,
    hlive, hwk, Handle_tp_clear_eq]

/-- Running `Handle_tp_dealloc` on an initialized handle that is not closing: an implicit close is
requested and the slot is not freed. -/
theorem dealloc_exec_active (w : World)
    (hinit : w.h.initialized = true) (hptr : w.h.uv_handle = .slot)
    (hlive : w.slot_frees = 0) (hopen : w.slot.closing = false) :
    Handle_tp_dealloc w =
      .ok { w with
        h := { w.h with on_close_cb := none, loop := none, dict := none, weakreflist := none },
        h_freed := true,
        slot := { w.slot with data := .NULL, closing := true,
                              close_cb := some .on_handle_dealloc_close },
        trace := w.trace ++ [.uv_close .on_handle_dealloc_close]
                 ++ (if w.h.weakreflist.isSome then [.clear_weakrefs] else []),
        ob_refcnt := fun x => w.ob_refcnt x
          - (if w.h.on_close_cb = some x then 1 else 0) - (if w.h.loop = some x then 1 else 0)
          - (if w.h.dict = some x then 1 else 0) } := by
  cases hwk : w.h.weakreflist <;>
  simp [Handle_tp_dealloc, ASSERT, deref, uv_is_closing, uv_close, hinit, hptr,
    hlive, hopen, hwk, Handle_tp_clear_eq]

/-- The macro `Py_DECREF(self)` when other references remain. -/
theorem Py_DECREF_self_keep (w : World) (hrc : w.ob_refcnt .self ≠ 1) :
    Py_DECREF_self w =
      .ok { w with ob_refcnt := fun x => w.ob_refcnt x - (if x = .self then 1 else 0) } := by
  have hne : w.ob_refcnt .self - 1 ≠ 0 := by omega
  simp only [Py_DECREF_self, refcnt_dec, Function.update_same, hne, if_false]
  congr 2
  funext x
  by_cases h : x = .self <;> simp [Function.update, h]

/-- The macro `Py_DECREF(self)` on the last reference runs `Handle_tp_dealloc`. -/
theorem Py_DECREF_self_last (w : World) (hrc : w.ob_refcnt .self = 1) :
    Py_DECREF_self w =
      Handle_tp_dealloc
        { w with ob_refcnt := fun x => w.ob_refcnt x - (if x = .self then 1 else 0) } := by
  have he : w.ob_refcnt .self - 1 = 0 := by omega
  simp only [Py_DECREF_self, refcnt_dec, Function.update_same, he, if_true]
  congr 2
  funext x
  by_cases h : x = .self <;> simp [Function.update, h, he]

/-- The world right after a successful `close(cb)`. -/
theorem close_exec (w : World) (args : List PyObj) (cb : PyObj)
    (hinit : w.h.initialized = true) (hptr : w.h.uv_handle = .slot)
    (hlive : w.slot_frees = 0) (hopen : w.slot.closing = false)
    (hargs : PyArg_ParseTuple_optO args .Py_None = some cb)
    (hcb : cb = .Py_None ∨ PyCallable_Check cb = true) :
    Handle_func_close w args =
      .ok (.returned .Py_None,
        { w with
          h := { w.h with on_close_cb := some cb },
          slot := { w.slot with closing := true, close_cb := some .on_handle_close },
          trace := w.trace ++ [.uv_close .on_handle_close],
          ob_refcnt := fun x => w.ob_refcnt x + (if x = cb then 1 else 0)
            + (if x = .self then 1 else 0) + (if x = .Py_None then 1 else 0) }) := by
  rcases callable_cases cb hcb with rfl | ⟨n, rfl⟩ <;>
  simp [Handle_func_close, RAISE_IF_HANDLE_NOT_INITIALIZED, RAISE_IF_HANDLE_CLOSED,
    uv_is_closing, deref, hinit, hptr, hlive, hopen, hargs, uv_close, Py_RETURN_NONE,
    Py_INCREF, PyCallable_Check] <;>
  (funext o; simp only [Function.update, eq_rec_constant, dite_eq_ite]; split_ifs <;> simp_all)

/-- A successful `close()` determines its callback. -/
theorem close_success_inv (w w1 : World) (args : List PyObj)
    (hinit : w.h.initialized = true) (hptr : w.h.uv_handle = .slot)
    (hlive : w.slot_frees = 0) (hopen : w.slot.closing = false)
    (hclose : Handle_func_close w args = .ok (.returned .Py_None, w1)) :
    ∃ cb, PyArg_ParseTuple_optO args .Py_None = some cb ∧
      (cb = .Py_None ∨ PyCallable_Check cb = true) := by
  cases hp : PyArg_ParseTuple_optO args .Py_None with
  | none =>
    simp [Handle_func_close, RAISE_IF_HANDLE_NOT_INITIALIZED, RAISE_IF_HANDLE_CLOSED,
      uv_is_closing, deref, hinit, hptr, hlive, hopen, hp] at hclose
  | some cb =>
    refine ⟨cb, rfl, ?_⟩
    by_contra hcon
    push_neg at hcon
    have hguard : (cb != PyObj.Py_None && !PyCallable_Check cb) = true := by
      simp [hcon.1, hcon.2]
    simp [Handle_func_close, RAISE_IF_HANDLE_NOT_INITIALIZED, RAISE_IF_HANDLE_CLOSED,
      uv_is_closing, deref, hinit, hptr, hlive, hopen, hp, hguard] at hclose

/-- Entering `on_handle_close` for a live wrapper with a stored callback. -/
theorem enter_exec (w : World) (cb : PyObj)
    (hlive : w.slot_frees = 0) (hdata : w.slot.data = .wrapper) (hnf : w.h_freed = false)
    (hcb : w.h.on_close_cb = some cb) :
    on_handle_close_enter w .slot =
      .ok (if cb = .Py_None then w
           else { w with trace := w.trace ++ [.call cb [.self]], cb_running := true }) := by
  by_cases h : cb = .Py_None <;>
  simp [on_handle_close_enter, ASSERT, deref, hlive, hdata, hnf, hcb, h]

/-- Lines 23-34 of `on_handle_close` in closed form, up to the final `Py_DECREF(self)`. -/
theorem leave_exec (w : World) (cb : PyObj) (l : Nat) (result : Option PyObj)
    (hcb : w.h.on_close_cb = some cb) (hcbv : cb = .Py_None ∨ PyCallable_Check cb = true)
    (hl : w.h.loop = some (.loop l)) :
    on_handle_close_leave w result =
      Py_DECREF_self { w with
        h := { w.h with on_close_cb := none, loop := some .Py_None },
        cb_running := false,
        trace := if w.cb_running && result.isNone then
                   w.trace ++ [.uncaught (some (.loop l)) (w.ob_refcnt (.loop l))]
                 else w.trace,
        ob_refcnt := fun x => w.ob_refcnt x + (if x = .Py_None then 1 else 0)
          - (if x = cb then 1 else 0) - (if x = .loop l then 1 else 0) } := by
  rcases callable_cases cb hcbv with rfl | ⟨n, rfl⟩ <;>
  cases hrun : w.cb_running <;> cases result <;>
  simp [on_handle_close_leave, Py_DECREF, refcnt_dec, Py_INCREF, Py_XDECREF,
    handle_uncaught_exception, hcb, hl, hrun] <;>
  congr 2 <;>
  (funext o; simp only [Function.update, eq_rec_constant, dite_eq_ite]; split_ifs <;> simp_all)

/-- The rest of `on_handle_close` when the pin is not the last reference. -/
theorem leave_exec_keep (w : World) (cb : PyObj) (l : Nat) (result : Option PyObj)
    (hcb : w.h.on_close_cb = some cb) (hcbv : cb = .Py_None ∨ PyCallable_Check cb = true)
    (hl : w.h.loop = some (.loop l)) (hrc : w.ob_refcnt .self ≠ 1) :
    on_handle_close_leave w result =
      .ok { w with
        h := { w.h with on_close_cb := none, loop := some .Py_None },
        cb_running := false,
        trace := if w.cb_running && result.isNone then
                   w.trace ++ [.uncaught (some (.loop l)) (w.ob_refcnt (.loop l))]
                 else w.trace,
        ob_refcnt := fun x => w.ob_refcnt x + (if x = .Py_None then 1 else 0)
          - (if x = cb then 1 else 0) - (if x = .loop l then 1 else 0)
          - (if x = .self then 1 else 0) } := by
  have hs : ¬ PyObj.self = cb := by
    rcases callable_cases cb hcbv with rfl | ⟨n, rfl⟩ <;> simp
  rw [leave_exec w cb l result hcb hcbv hl, Py_DECREF_self_keep _ (by simpa [hs] using hrc)]

/-- The rest of `on_handle_close` when the pin is the last reference: `Py_DECREF(self)`
runs `Handle_tp_dealloc`, which frees the slot (the handle is closing). -/
theorem leave_exec_dealloc (w : World) (cb : PyObj) (l : Nat) (result : Option PyObj)
    (hcb : w.h.on_close_cb = some cb) (hcbv : cb = .Py_None ∨ PyCallable_Check cb = true)
    (hl : w.h.loop = some (.loop l)) (hrc : w.ob_refcnt .self = 1)
    (hinit : w.h.initialized = true) (hptr : w.h.uv_handle = .slot)
    (hlive : w.slot_frees = 0) (hcl : w.slot.closing = true) :
    on_handle_close_leave w result =
      .ok { w with
        h := { w.h with on_close_cb := none, loop := none, dict := none, weakreflist := none },
        h_freed := true,
        slot := { w.slot with data := .NULL },
        slot_frees := 1,
        cb_running := false,
        trace := (if w.cb_running && result.isNone then
                    w.trace ++ [.uncaught (some (.loop l)) (w.ob_refcnt (.loop l))]
                  else w.trace)
                 ++ (if w.h.weakreflist.isSome then [.clear_weakrefs] else []),
        ob_refcnt := fun x => w.ob_refcnt x
          - (if x = cb then 1 else 0) - (if x = .loop l then 1 else 0)
          - (if x = .self then 1 else 0) - (if w.h.dict = some x then 1 else 0) } := by
  have hs : ¬ PyObj.self = cb := by
    rcases callable_cases cb hcbv with rfl | ⟨n, rfl⟩ <;> simp
  rw [leave_exec w cb l result hcb hcbv hl, Py_DECREF_self_last _ (by simpa [hs] using hrc)]
  refine (dealloc_exec_closing _ ?_ ?_ ?_ ?_).trans ?_
  · simpa using hinit
  · simpa using hptr
  · simpa using hlive
  · simpa using hcl
  · simp only [Except.ok.injEq]
    apply World.ext <;> simp
    funext x
    simp only [eq_comm]
    omega

/-- The whole of `on_handle_close` when the pin is not the last reference. -/
theorem on_handle_close_keep (w : World) (cb : PyObj) (l : Nat) (result : Option PyObj)
    (hlive : w.slot_frees = 0) (hdata : w.slot.data = .wrapper) (hnf : w.h_freed = false)
    (hrun : w.cb_running = false)
    (hcb : w.h.on_close_cb = some cb) (hcbv : cb = .Py_None ∨ PyCallable_Check cb = true)
    (hl : w.h.loop = some (.loop l)) (hrc : w.ob_refcnt .self ≠ 1) :
    on_handle_close w .slot result =
      .ok { w with
        h := { w.h with on_close_cb := none, loop := some .Py_None },
        cb_running := false,
        trace := w.trace ++
          (if cb = .Py_None then []
           else .call cb [.self] ::
             (if result.isNone then [.uncaught (some (.loop l)) (w.ob_refcnt (.loop l))]
              else [])),
        ob_refcnt := fun x => w.ob_refcnt x + (if x = .Py_None then 1 else 0)
          - (if x = cb then 1 else 0) - (if x = .loop l then 1 else 0)
          - (if x = .self then 1 else 0) } := by
  simp only [on_handle_close, enter_exec w cb hlive hdata hnf hcb]
  by_cases hN : cb = .Py_None
  · simp only [hN, if_true]
    rw [leave_exec_keep w .Py_None l result (hN ▸ hcb) (Or.inl rfl) hl hrc]
    simp [hrun]
  · simp only [hN, if_false]
    refine (leave_exec_keep _ cb l result ?_ hcbv ?_ ?_).trans ?_
    · simpa using hcb
    · simpa using hl
    · simpa using hrc
    · cases result <;> simp

/-- The whole of `on_handle_close` when the pin is the last reference. -/
theorem on_handle_close_last (w : World) (cb : PyObj) (l : Nat) (result : Option PyObj)
    (hlive : w.slot_frees = 0) (hdata : w.slot.data = .wrapper) (hnf : w.h_freed = false)
    (hrun : w.cb_running = false)
    (hcb : w.h.on_close_cb = some cb) (hcbv : cb = .Py_None ∨ PyCallable_Check cb = true)
    (hl : w.h.loop = some (.loop l)) (hrc : w.ob_refcnt .self = 1)
    (hinit : w.h.initialized = true) (hptr : w.h.uv_handle = .slot)
    (hcl : w.slot.closing = true) :
    on_handle_close w .slot result =
      .ok { w with
        h := { w.h with on_close_cb := none, loop := none, dict := none, weakreflist := none },
        h_freed := true,
        slot := { w.slot with data := .NULL },
        slot_frees := 1,
        cb_running := false,
        trace := w.trace ++
          (if cb = .Py_None then []
           else .call cb [.self] ::
             (if result.isNone then [.uncaught (some (.loop l)) (w.ob_refcnt (.loop l))]
              else []))
          ++ (if w.h.weakreflist.isSome then [.clear_weakrefs] else []),
        ob_refcnt := fun x => w.ob_refcnt x
          - (if x = cb then 1 else 0) - (if x = .loop l then 1 else 0)
          - (if x = .self then 1 else 0) - (if w.h.dict = some x then 1 else 0) } := by
  simp only [on_handle_close, enter_exec w cb hlive hdata hnf hcb]
  by_cases hN : cb = .Py_None
  · simp only [hN, if_true]
    rw [leave_exec_dealloc w .Py_None l result (hN ▸ hcb) (Or.inl rfl) hl hrc hinit hptr hlive hcl]
    simp [hrun]
  · simp only [hN, if_false]
    refine (leave_exec_dealloc _ cb l result ?_ hcbv ?_ ?_ ?_ ?_ ?_ ?_).trans ?_
    · simpa using hcb
    · simpa using hl
    · simpa using hrc
    · simpa using hinit
    · simpa using hptr
    · simpa using hlive
    · simpa using hcl
    · cases result <;> simp

/-- A closed handle rejects `close`, `ref` and `unref`, leaving the world as it is. -/
theorem closedInv_ops (w : World) (hK : ClosedInv w) (args : List PyObj) :
    Handle_func_close w args = .ok (.raised .HandleClosedError, w) ∧
    Handle_func_ref w = .ok (.raised .HandleClosedError, w) ∧
    Handle_func_unref w = .ok (.raised .HandleClosedError, w) := by
  obtain ⟨hinit, hptr, hlive, hcl, -⟩ := hK
  simp [Handle_func_close, Handle_func_ref, Handle_func_unref, RAISE_IF_HANDLE_NOT_INITIALIZED,
    RAISE_IF_HANDLE_CLOSED, uv_is_closing, deref, hinit, hptr, hlive, hcl]

/-- Events other than `uv_close` do not change the number of close requests. -/
theorem uv_close_requests_append (w : World) (es : List Event)
    (hes : ∀ e ∈ es, ∀ cb, e ≠ .uv_close cb) (t : List Event) (ht : t = w.trace ++ es) :
    (t.countP fun e => match e with
      | .uv_close _ => true
      | _ => false) = uv_close_requests w := by
  subst ht
  rw [List.countP_append]
  have : (es.countP fun e => match e with
      | .uv_close _ => true
      | _ => false) = 0 := by
    rw [List.countP_eq_zero]
    intro e he
    cases e <;> simp
    exact hes _ he _ rfl
  simp [uv_close_requests, this]

/-- Every later event keeps a closed handle closed, and none crashes. -/
theorem closedInv_step (w : World) (hK : ClosedInv w) (e : Later) :
    ∃ w1, w.later_step e = .ok w1 ∧ ClosedInv w1 := by
  have hops := closedInv_ops w hK
  obtain ⟨hinit, hptr, hlive, hcl, hnf, hrun, hcnt, hpend⟩ := hK
  cases e with
  | call op =>
    cases op with
    | close args =>
      exact ⟨w, by simp [World.later_step, Op.exec, (hops args).1],
        hinit, hptr, hlive, hcl, hnf, hrun, hcnt, hpend⟩
    | ref =>
      exact ⟨w, by simp [World.later_step, Op.exec, (hops []).2.1],
        hinit, hptr, hlive, hcl, hnf, hrun, hcnt, hpend⟩
    | unref =>
      exact ⟨w, by simp [World.later_step, Op.exec, (hops []).2.2],
        hinit, hptr, hlive, hcl, hnf, hrun, hcnt, hpend⟩
    | active_get =>
      refine ⟨Py_INCREF w (.Py_Bool w.slot.active), by simp [World.later_step, Op.exec,
        Handle_active_get, RAISE_IF_HANDLE_NOT_INITIALIZED, uv_is_active, deref, hinit, hptr,
        hlive, PyBool_FromLong], ?_⟩
      simpa [ClosedInv, Py_INCREF, uv_close_requests] using
        ⟨hinit, hptr, hlive, hcl, hnf, hrun, hcnt, hpend⟩
    | closed_get =>
      refine ⟨Py_INCREF w (.Py_Bool w.slot.closing), by simp [World.later_step, Op.exec,
        Handle_closed_get, RAISE_IF_HANDLE_NOT_INITIALIZED, uv_is_closing, deref, hinit, hptr,
        hlive, PyBool_FromLong], ?_⟩
      simpa [ClosedInv, Py_INCREF, uv_close_requests] using
        ⟨hinit, hptr, hlive, hcl, hnf, hrun, hcnt, hpend⟩
  | reactor result =>
    rcases hpend with ⟨hnone, hrc⟩ | ⟨hsome, hdata, ⟨cb, hcb, hcbv⟩, ⟨l, hl⟩, hrc⟩
    · exact ⟨w, by simp [World.later_step, uv_run_close, hnone],
        hinit, hptr, hlive, hcl, hnf, hrun, hcnt, Or.inl ⟨hnone, hrc⟩⟩
    · have hs : ¬ PyObj.self = cb := by
        rcases callable_cases cb hcbv with rfl | ⟨n, rfl⟩ <;> simp
      have hex := on_handle_close_keep { w with slot := { w.slot with close_cb := none } }
        cb l result hlive hdata hnf hrun hcb hcbv hl (by show w.ob_refcnt .self ≠ 1; omega)
      have hstep : w.later_step (.reactor result) =
          on_handle_close { w with slot := { w.slot with close_cb := none } } .slot result := by
        simp [World.later_step, uv_run_close, hsome, deref, hlive]
      rw [hstep, hex]
      refine ⟨_, rfl, ?_⟩
      refine ⟨hinit, hptr, hlive, hcl, hnf, rfl, ?_, Or.inl ⟨rfl, ?_⟩⟩
      · rw [← hcnt]
        refine uv_close_requests_append w _ ?_ _ rfl
        intro e he c
        by_cases hN : cb = .Py_None <;> cases result <;> simp [hN] at he <;>
          (try rcases he with rfl | rfl) <;> simp_all
      · simp [hs]
        omega

/-- A run of later events from a closed handle ends in a closed handle. -/
theorem closedInv_later (evs : List Later) (w : World) (hK : ClosedInv w) :
    ∃ w2, w.later evs = .ok w2 ∧ ClosedInv w2 := by
  induction evs generalizing w with
  | nil => exact ⟨w, rfl, hK⟩
  | cons e es ih =>
    obtain ⟨w1, h1, hK1⟩ := closedInv_step w hK e
    obtain ⟨w2, h2, hK2⟩ := ih w1 hK1
    exact ⟨w2, by simp [World.later, h1, h2], hK2⟩

/-! ## Claims -/

/-- C1: on an initialized handle whose `close` has succeeded, after any sequence of further
calls and reactor iterations (completion delivered or not), `close` with any arguments,
`ref` and `unref` fail with `HandleClosedError` and leave the whole state, trace of reactor
calls included, unchanged; the number of `uv_close` requests is exactly one. -/
theorem closed_handle_rejects_mutators (w w1 : World) (args : List PyObj) (l : Nat)
    (evs : List Later)
    (hinit : w.h.initialized = true) (hptr : w.h.uv_handle = .slot)
    (hlive : w.slot_frees = 0) (hopen : w.slot.closing = false)
    (hdata : w.slot.data = .wrapper) (hloop : w.h.loop = some (.loop l))
    (hnf : w.h_freed = false) (hrun : w.cb_running = false)
    (hrc : 1 ≤ w.ob_refcnt .self) (hreq : uv_close_requests w = 0)
    (hclose : Handle_func_close w args = .ok (.returned .Py_None, w1)) :
    ∃ w2, w1.later evs = .ok w2 ∧
      (∀ args2, Handle_func_close w2 args2 = .ok (.raised .HandleClosedError, w2)) ∧
      Handle_func_ref w2 = .ok (.raised .HandleClosedError, w2) ∧
      Handle_func_unref w2 = .ok (.raised .HandleClosedError, w2) ∧
      uv_close_requests w2 = 1 := by
  obtain ⟨cb, hargs, hcbv⟩ := close_success_inv w w1 args hinit hptr hlive hopen hclose
  rw [close_exec w args cb hinit hptr hlive hopen hargs hcbv] at hclose
  simp only [Except.ok.injEq, Prod.mk.injEq, true_and] at hclose
  have hK : ClosedInv w1 := by
    subst hclose
    refine ⟨hinit, hptr, hlive, rfl, hnf, hrun, ?_, Or.inr ⟨rfl, hdata, ⟨cb, rfl, hcbv⟩,
      ⟨l, hloop⟩, ?_⟩⟩
    · simp [uv_close_requests, List.countP_append] at hreq ⊢
      exact hreq
    · simp
      have : (0 : Int) ≤ (if PyObj.self = cb then 1 else 0) := by split_ifs <;> simp
      omega
  obtain ⟨w2, hrun2, hK2⟩ := closedInv_later evs w1 hK
  exact ⟨w2, hrun2, fun a => (closedInv_ops w2 hK2 a).1, (closedInv_ops w2 hK2 []).2.1,
    (closedInv_ops w2 hK2 []).2.2, hK2.2.2.2.2.2.2.1⟩

/-- Witness for C1: the sample handle, closed with a callable, then `ref`, a reactor
iteration whose callback raises, and another `close`. -/
theorem closed_handle_rejects_mutators_witness :
    (sample_active.h.initialized = true ∧ sample_active.slot.closing = false ∧
      Handle_func_close sample_active [sample_cb] = .ok (.returned .Py_None, sample_closing)) ∧
    ∃ w2, sample_closing.later [.call .ref, .reactor none, .call (.close [])] = .ok w2 ∧
      (∀ args2, Handle_func_close w2 args2 = .ok (.raised .HandleClosedError, w2)) ∧
      Handle_func_ref w2 = .ok (.raised .HandleClosedError, w2) ∧
      Handle_func_unref w2 = .ok (.raised .HandleClosedError, w2) ∧
      uv_close_requests w2 = 1 :=
  ⟨⟨rfl, rfl, rfl⟩,
    closed_handle_rejects_mutators sample_active sample_closing [sample_cb] 0
      [.call .ref, .reactor none, .call (.close [])]
      rfl rfl rfl rfl rfl rfl rfl rfl (by decide) rfl rfl⟩

/-- C2: on a handle whose `initialized` flag is false, `close` (any arguments), `ref`,
`unref` and the `active` and `closed` getters all fail with the not-initialized error and
return the state unchanged, whatever the native pointer and the slot are; with a NULL
native pointer the closed check itself would fault, so it is not reached. A wrapper fresh
from `Handle_tp_new` is such a handle, its native pointer NULL. -/
theorem uninitialized_handle_rejects_all (w : World) (args : List PyObj) (e : PyExc)
    (hinit : w.h.initialized = false) :
    Handle_func_close w args = .ok (.raised .NotInitializedError, w) ∧
    Handle_func_ref w = .ok (.raised .NotInitializedError, w) ∧
    Handle_func_unref w = .ok (.raised .NotInitializedError, w) ∧
    Handle_active_get w = .ok (.raised .NotInitializedError, w) ∧
    Handle_closed_get w = .ok (.raised .NotInitializedError, w) ∧
    (w.h.uv_handle = .NULL → RAISE_IF_HANDLE_CLOSED w e = .error .null_deref) ∧
    (∀ env, ∃ w0, Handle_tp_new env true = some w0 ∧ w0.h.initialized = false ∧
      w0.h.uv_handle = .NULL) := by
  refine ⟨?_, ?_, ?_, ?_, ?_, ?_, ?_⟩
  · simp [Handle_func_close, RAISE_IF_HANDLE_NOT_INITIALIZED, hinit]
  · simp [Handle_func_ref, RAISE_IF_HANDLE_NOT_INITIALIZED, hinit]
  · simp [Handle_func_unref, RAISE_IF_HANDLE_NOT_INITIALIZED, hinit]
  · simp [Handle_active_get, RAISE_IF_HANDLE_NOT_INITIALIZED, hinit]
  · simp [Handle_closed_get, RAISE_IF_HANDLE_NOT_INITIALIZED, hinit]
  · intro hnull
    simp [RAISE_IF_HANDLE_CLOSED, uv_is_closing, deref, hnull]
  · intro env
    exact ⟨_, rfl, rfl, rfl⟩

/-- Witness for C2: the wrapper fresh from `Handle_tp_new`, `close(sample_cb)`. -/
theorem uninitialized_handle_rejects_all_witness :
    sample_new.h.initialized = false ∧
    Handle_func_close sample_new [sample_cb] = .ok (.raised .NotInitializedError, sample_new) ∧
    Handle_func_ref sample_new = .ok (.raised .NotInitializedError, sample_new) ∧
    Handle_closed_get sample_new = .ok (.raised .NotInitializedError, sample_new) :=
  have h := uninitialized_handle_rejects_all sample_new [sample_cb] .HandleClosedError rfl
  ⟨rfl, h.1, h.2.1, h.2.2.2.2.1⟩

/-- C3: on an initialized handle that is not closing, `close(a)` with `a` neither `None`
nor callable fails with a type error and returns the state unchanged (so no callback is
stored, no reference is taken, no `uv_close` is issued); the `closed` getter still answers
false, and `close` with a valid argument then succeeds and stores its callback. -/
theorem close_rejects_non_callable (w : World) (a : PyObj)
    (hinit : w.h.initialized = true) (hptr : w.h.uv_handle = .slot)
    (hlive : w.slot_frees = 0) (hopen : w.slot.closing = false)
    (hN : a ≠ .Py_None) (hcall : PyCallable_Check a = false) :
    Handle_func_close w [a] = .ok (.raised .TypeError, w) ∧
    (∃ w', Handle_closed_get w = .ok (.returned (.Py_Bool false), w')) ∧
    (∀ args cb, (args = [] ∧ cb = .Py_None ∨ args = [cb]) →
      (cb = .Py_None ∨ PyCallable_Check cb = true) →
      ∃ w', Handle_func_close w args = .ok (.returned .Py_None, w') ∧
        w'.h.on_close_cb = some cb ∧ w'.slot.closing = true) := by
  refine ⟨?_, ?_, ?_⟩
  · simp [Handle_func_close, RAISE_IF_HANDLE_NOT_INITIALIZED, RAISE_IF_HANDLE_CLOSED,
      uv_is_closing, deref, hinit, hptr, hlive, hopen, PyArg_ParseTuple_optO, hN, hcall]
  · exact ⟨_, by simp [Handle_closed_get, RAISE_IF_HANDLE_NOT_INITIALIZED, uv_is_closing,
      deref, hinit, hptr, hlive, hopen, PyBool_FromLong]; rfl⟩
  · intro args cb hargs hcbv
    exact ⟨_, close_exec w args cb hinit hptr hlive hopen (parse_valid args cb hargs) hcbv,
      rfl, rfl⟩

/-- Witness for C3: the sample handle, `close(loop 0)`. -/
theorem close_rejects_non_callable_witness :
    (sample_active.h.initialized = true ∧ sample_active.slot.closing = false ∧
      PyCallable_Check (.loop 0) = false) ∧
    Handle_func_close sample_active [.loop 0] = .ok (.raised .TypeError, sample_active) :=
  ⟨⟨rfl, rfl, rfl⟩,
    (close_rejects_non_callable sample_active (.loop 0) rfl rfl rfl rfl (by decide) rfl).1⟩

/-- C4: on an initialized handle that is not closing, `close` with no argument, `None` or a
callable returns `None`, and the state after it is the state before with exactly these
changes: `on_close_cb` is the callback (`None` when absent); the counts rise by one for the
callback (the stored reference), by one for the wrapper (the pin) and by one for `None`
(the returned reference); the slot is marked closing with `on_handle_close` registered; one
`uv_close(on_handle_close)` is appended to the trace. `loop` and `initialized` are
unchanged, and the `closed` getter called right then answers true. -/
theorem close_success_post (w : World) (args : List PyObj) (cb : PyObj)
    (hinit : w.h.initialized = true) (hptr : w.h.uv_handle = .slot)
    (hlive : w.slot_frees = 0) (hopen : w.slot.closing = false)
    (hargs : args = [] ∧ cb = .Py_None ∨ args = [cb])
    (hcbv : cb = .Py_None ∨ PyCallable_Check cb = true) :
    ∃ w', Handle_func_close w args = .ok (.returned .Py_None, w') ∧
      w' = { w with
        h := { w.h with on_close_cb := some cb },
        slot := { w.slot with closing := true, close_cb := some .on_handle_close },
        trace := w.trace ++ [.uv_close .on_handle_close],
        ob_refcnt := fun x => w.ob_refcnt x + (if x = cb then 1 else 0)
          + (if x = .self then 1 else 0) + (if x = .Py_None then 1 else 0) } ∧
      w'.h.on_close_cb = some cb ∧
      w'.ob_refcnt .self = w.ob_refcnt .self + 1 ∧
      (cb ≠ .Py_None → w'.ob_refcnt cb = w.ob_refcnt cb + 1) ∧
      w'.h.loop = w.h.loop ∧ w'.h.initialized = w.h.initialized ∧
      uv_close_requests w' = uv_close_requests w + 1 ∧
      (∃ w'', Handle_closed_get w' = .ok (.returned (.Py_Bool true), w'')) := by
  have hs : ¬ PyObj.self = cb := by
    rcases callable_cases cb hcbv with rfl | ⟨n, rfl⟩ <;> simp
  refine ⟨_, close_exec w args cb hinit hptr hlive hopen (parse_valid args cb hargs) hcbv,
    rfl, rfl, ?_, ?_, rfl, rfl, ?_, ?_⟩
  · simp [hs]
  · intro hN
    rcases callable_cases cb hcbv with rfl | ⟨n, rfl⟩
    · exact absurd rfl hN
    · simp
  · simp [uv_close_requests, List.countP_append]
  · exact ⟨_, by simp [Handle_closed_get, RAISE_IF_HANDLE_NOT_INITIALIZED, uv_is_closing,
      deref, hinit, hptr, hlive, PyBool_FromLong]; rfl⟩

/-- Witness for C4: the sample handle, `close(sample_cb)`. -/
theorem close_success_post_witness :
    (sample_active.h.initialized = true ∧ sample_active.slot.closing = false) ∧
    ∃ w', Handle_func_close sample_active [sample_cb] = .ok (.returned .Py_None, w') ∧
      w'.h.on_close_cb = some sample_cb ∧
      w'.ob_refcnt .self = sample_active.ob_refcnt .self + 1 ∧
      (∃ w'', Handle_closed_get w' = .ok (.returned (.Py_Bool true), w'')) :=
  ⟨⟨rfl, rfl⟩,
    (close_success_post sample_active [sample_cb] sample_cb rfl rfl rfl rfl (Or.inr rfl)
      (Or.inr rfl)).imp fun _ h => ⟨h.1, h.2.2.1, h.2.2.2.1, h.2.2.2.2.2.2.2.2⟩⟩

/-- The reactor delivering a pending `on_handle_close` completion. -/
theorem uv_run_close_user (w : World) (result : Option PyObj)
    (hlive : w.slot_frees = 0) (hsome : w.slot.close_cb = some .on_handle_close) :
    uv_run_close w result =
      on_handle_close { w with slot := { w.slot with close_cb := none } } .slot result := by
  simp [uv_run_close, hsome, deref, hlive]

/-- The reactor delivering a pending `on_handle_close` completion while a reference other
than the pin remains. -/
theorem uv_run_close_keep (w : World) (cb : PyObj) (l : Nat) (result : Option PyObj)
    (hlive : w.slot_frees = 0) (hsome : w.slot.close_cb = some .on_handle_close)
    (hdata : w.slot.data = .wrapper) (hnf : w.h_freed = false) (hrun : w.cb_running = false)
    (hcb : w.h.on_close_cb = some cb) (hcbv : cb = .Py_None ∨ PyCallable_Check cb = true)
    (hl : w.h.loop = some (.loop l)) (hrc : w.ob_refcnt .self ≠ 1) :
    uv_run_close w result =
      .ok { w with
        h := { w.h with on_close_cb := none, loop := some .Py_None },
        slot := { w.slot with close_cb := none },
        cb_running := false,
        trace := w.trace ++
          (if cb = .Py_None then []
           else .call cb [.self] ::
             (if result.isNone then [.uncaught (some (.loop l)) (w.ob_refcnt (.loop l))]
              else [])),
        ob_refcnt := fun x => w.ob_refcnt x + (if x = .Py_None then 1 else 0)
          - (if x = cb then 1 else 0) - (if x = .loop l then 1 else 0)
          - (if x = .self then 1 else 0) } := by
  rw [uv_run_close_user w result hlive hsome]
  exact on_handle_close_keep { w with slot := { w.slot with close_cb := none } } cb l result
    hlive hdata hnf hrun hcb hcbv hl hrc

/-- The reactor delivering a pending `on_handle_dealloc_close` completion. -/
theorem uv_run_close_implicit (w : World) (result : Option PyObj)
    (hlive : w.slot_frees = 0) (hsome : w.slot.close_cb = some .on_handle_dealloc_close) :
    uv_run_close w result =
      .ok { w with slot := { w.slot with close_cb := none }, slot_frees := 1 } := by
  simp [uv_run_close, hsome, deref, hlive, on_handle_dealloc_close, free_handle, ASSERT,
    PyMem_Free]

/-- C5: on an initialized handle that is not closing, `close` with a valid argument returns
without any user callable having been invoked; the reactor iteration that delivers the
completion invokes the callback exactly once, with the wrapper as its only argument, when
it is a callable, and invokes nothing when it is absent or `None`; further reactor
iterations invoke nothing more. -/
theorem close_callback_invoked_once (w : World) (args : List PyObj) (cb : PyObj) (l : Nat)
    (result r2 : Option PyObj)
    (hinit : w.h.initialized = true) (hptr : w.h.uv_handle = .slot)
    (hlive : w.slot_frees = 0) (hopen : w.slot.closing = false)
    (hdata : w.slot.data = .wrapper) (hloop : w.h.loop = some (.loop l))
    (hnf : w.h_freed = false) (hrun : w.cb_running = false)
    (hrc : 1 ≤ w.ob_refcnt .self)
    (hargs : args = [] ∧ cb = .Py_None ∨ args = [cb])
    (hcbv : cb = .Py_None ∨ PyCallable_Check cb = true) :
    ∃ w1 w2, Handle_func_close w args = .ok (.returned .Py_None, w1) ∧
      user_calls w1 = user_calls w ∧
      uv_run_close w1 result = .ok w2 ∧
      user_calls w2 = user_calls w ++ (if cb = .Py_None then [] else [.call cb [.self]]) ∧
      uv_run_close w2 r2 = .ok w2 := by
  have hs : ¬ PyObj.self = cb := by
    rcases callable_cases cb hcbv with rfl | ⟨n, rfl⟩ <;> simp
  refine ⟨_, ?w2, close_exec w args cb hinit hptr hlive hopen (parse_valid args cb hargs) hcbv,
    ?a, ?b, ?c, ?d⟩
  case b =>
    refine uv_run_close_keep _ cb l result ?_ ?_ ?_ ?_ ?_ ?_ hcbv ?_ ?_ <;>
      first | assumption | rfl | (simp [hs]; omega)
  case a => simp [user_calls, List.filter_append]
  case c =>
    simp only [user_calls]
    by_cases hN : cb = .Py_None <;> cases result <;> simp [hN, List.filter_append]
  case d => simp [uv_run_close]

/-- Witness for C5: the sample handle, `close(sample_cb)`, the callback raising. -/
theorem close_callback_invoked_once_witness :
    (sample_active.h.initialized = true ∧ sample_active.slot.closing = false) ∧
    ∃ w1 w2, Handle_func_close sample_active [sample_cb] = .ok (.returned .Py_None, w1) ∧
      user_calls w1 = user_calls sample_active ∧
      uv_run_close w1 none = .ok w2 ∧
      user_calls w2 = user_calls sample_active ++
        (if sample_cb = .Py_None then [] else [.call sample_cb [.self]]) ∧
      uv_run_close w2 none = .ok w2 :=
  ⟨⟨rfl, rfl⟩,
    close_callback_invoked_once sample_active [sample_cb] sample_cb 0 none none
      rfl rfl rfl rfl rfl rfl rfl rfl (by decide) (Or.inr rfl) (Or.inr rfl)⟩

/-- C6: after `close` with a valid argument on an initialized handle that is not closing
(its caller holding a reference) and the delivery of the completion: `on_close_cb` is NULL,
the `loop` field holds `None` instead of the Loop, and relative to the state before `close`
every count is unchanged except the Loop's, one lower, and `None`'s, two higher (the
reference returned by `close` and the one now stored in `loop`). In particular the
wrapper's count, raised by one by `close`, is back to its value before `close`, and so is
the callback's. -/
theorem close_completion_balanced (w : World) (args : List PyObj) (cb : PyObj) (l : Nat)
    (result : Option PyObj)
    (hinit : w.h.initialized = true) (hptr : w.h.uv_handle = .slot)
    (hlive : w.slot_frees = 0) (hopen : w.slot.closing = false)
    (hdata : w.slot.data = .wrapper) (hloop : w.h.loop = some (.loop l))
    (hnf : w.h_freed = false) (hrun : w.cb_running = false)
    (hrc : 1 ≤ w.ob_refcnt .self)
    (hargs : args = [] ∧ cb = .Py_None ∨ args = [cb])
    (hcbv : cb = .Py_None ∨ PyCallable_Check cb = true) :
    ∃ w1 w2, Handle_func_close w args = .ok (.returned .Py_None, w1) ∧
      uv_run_close w1 result = .ok w2 ∧
      w1.h.on_close_cb = some cb ∧ w2.h.on_close_cb = none ∧
      w1.h.loop = some (.loop l) ∧ w2.h.loop = some .Py_None ∧
      w2.ob_refcnt (.loop l) = w1.ob_refcnt (.loop l) - 1 ∧
      w1.ob_refcnt .self = w.ob_refcnt .self + 1 ∧
      w2.ob_refcnt .self = w.ob_refcnt .self ∧
      (cb ≠ .Py_None → w1.ob_refcnt cb = w.ob_refcnt cb + 1 ∧ w2.ob_refcnt cb = w.ob_refcnt cb) ∧
      (∀ x, w2.ob_refcnt x = w.ob_refcnt x + (if x = .Py_None then 2 else 0)
        - (if x = .loop l then 1 else 0)) ∧
      w2.h_freed = false ∧ w2.slot_frees = 0 := by
  have hs : ¬ PyObj.self = cb := by
    rcases callable_cases cb hcbv with rfl | ⟨n, rfl⟩ <;> simp
  have hlc : ¬ PyObj.loop l = cb := by
    rcases callable_cases cb hcbv with rfl | ⟨n, rfl⟩ <;> simp
  refine ⟨_, ?w2, close_exec w args cb hinit hptr hlive hopen (parse_valid args cb hargs) hcbv,
    ?b, ?rest⟩
  case b =>
    refine uv_run_close_keep _ cb l result ?_ ?_ ?_ ?_ ?_ ?_ hcbv ?_ ?_ <;>
      first | assumption | rfl | (simp [hs]; omega)
  refine ⟨rfl, rfl, hloop, rfl, ?_, ?_, ?_, ?_, ?_, hnf, hlive⟩
  · simp [hlc]
  · simp [hs]
  · simp [hs]
  · intro hN
    rcases callable_cases cb hcbv with rfl | ⟨n, rfl⟩
    · exact absurd rfl hN
    · simp
  · intro x
    simp only []
    rcases callable_cases cb hcbv with rfl | ⟨n, rfl⟩ <;> split_ifs <;> simp_all <;> omega

/-- Witness for C6: the sample handle, `close(sample_cb)`, the callback returning `None`. -/
theorem close_completion_balanced_witness :
    (sample_active.h.initialized = true ∧ sample_active.slot.closing = false) ∧
    ∃ w1 w2, Handle_func_close sample_active [sample_cb] = .ok (.returned .Py_None, w1) ∧
      uv_run_close w1 (some .Py_None) = .ok w2 ∧
      w2.h.on_close_cb = none ∧ w2.h.loop = some .Py_None ∧
      w2.ob_refcnt (.loop 0) = w1.ob_refcnt (.loop 0) - 1 ∧
      w2.ob_refcnt .self = sample_active.ob_refcnt .self :=
  ⟨⟨rfl, rfl⟩,
    (close_completion_balanced sample_active [sample_cb] sample_cb 0 (some .Py_None)
      rfl rfl rfl rfl rfl rfl rfl rfl (by decide) (Or.inr rfl) (Or.inr rfl)).imp
      fun _ h => h.imp fun _ g =>
        ⟨g.1, g.2.1, g.2.2.2.1, g.2.2.2.2.2.1, g.2.2.2.2.2.2.1, g.2.2.2.2.2.2.2.2.1⟩⟩

/-- C7: `on_handle_close` on a close-pending handle (pinned, callback and Loop stored, the
attribute map not one of the wrapper, the Loop or the callback) always returns, whether the
callback raises (`none`) or returns a value. When a callable callback raises, exactly one
exception is handed to the handler, right after the callback's invocation, for the Loop
stored in the handle on entry, and at that moment that Loop's reference count is still its
count on entry: the handle's reference to the Loop has not been released yet (it is one
lower only when `on_handle_close` has returned). When the callback returns normally, or is
`None`, nothing is handed over. In both cases the same cleanup is done: all of the state but
the trace is the same, `on_close_cb` is NULL, the handle no longer refers to the Loop, and
the Loop's, the callback's and the wrapper's counts are each one lower. -/
theorem close_callback_exception_routed (w : World) (cb : PyObj) (l : Nat) (r : PyObj)
    (hinit : w.h.initialized = true) (hptr : w.h.uv_handle = .slot)
    (hlive : w.slot_frees = 0) (hcl : w.slot.closing = true)
    (hdata : w.slot.data = .wrapper) (hnf : w.h_freed = false) (hrun : w.cb_running = false)
    (hcb : w.h.on_close_cb = some cb) (hcbv : cb = .Py_None ∨ PyCallable_Check cb = true)
    (hl : w.h.loop = some (.loop l))
    (hdict : w.h.dict ≠ some .self ∧ w.h.dict ≠ some (.loop l) ∧ w.h.dict ≠ some cb) :
    ∃ wa wb, on_handle_close w .slot none = .ok wa ∧
      on_handle_close w .slot (some r) = .ok wb ∧
      uncaught_reports wa = uncaught_reports w ++
        (if cb = .Py_None then []
         else [.uncaught (some (.loop l)) (w.ob_refcnt (.loop l))]) ∧
      uncaught_reports wb = uncaught_reports w ∧
      wa.trace = w.trace ++
        (if cb = .Py_None then []
         else [.call cb [.self], .uncaught (some (.loop l)) (w.ob_refcnt (.loop l))]) ++
        (if w.ob_refcnt .self = 1 ∧ w.h.weakreflist.isSome then [.clear_weakrefs] else []) ∧
      wb.trace = w.trace ++ (if cb = .Py_None then [] else [.call cb [.self]]) ++
        (if w.ob_refcnt .self = 1 ∧ w.h.weakreflist.isSome then [.clear_weakrefs] else []) ∧
      wa.h = wb.h ∧ wa.ob_refcnt = wb.ob_refcnt ∧ wa.h_freed = wb.h_freed ∧
      wa.slot = wb.slot ∧ wa.slot_frees = wb.slot_frees ∧ wa.cb_running = false ∧
      wb.cb_running = false ∧
      wa.h.on_close_cb = none ∧ wa.h.loop ≠ some (.loop l) ∧
      wa.ob_refcnt (.loop l) = w.ob_refcnt (.loop l) - 1 ∧
      wa.ob_refcnt .self = w.ob_refcnt .self - 1 ∧
      (cb ≠ .Py_None → wa.ob_refcnt cb = w.ob_refcnt cb - 1) := by
  have hs : ¬ PyObj.self = cb := by
    rcases callable_cases cb hcbv with rfl | ⟨n, rfl⟩ <;> simp
  have hlc : ¬ PyObj.loop l = cb := by
    rcases callable_cases cb hcbv with rfl | ⟨n, rfl⟩ <;> simp
  obtain ⟨hd1, hd2, hd3⟩ := hdict
  by_cases hrc : w.ob_refcnt .self = 1
  · refine ⟨_, _,
      on_handle_close_last w cb l none hlive hdata hnf hrun hcb hcbv hl hrc hinit hptr hcl,
      on_handle_close_last w cb l (some r) hlive hdata hnf hrun hcb hcbv hl hrc hinit hptr hcl,
      ?_, ?_, ?_, ?_, rfl, rfl, rfl, rfl, rfl, rfl, rfl, rfl, ?_, ?_, ?_, ?_⟩
    · by_cases hN : cb = .Py_None <;> cases hwk : w.h.weakreflist <;>
        simp [uncaught_reports, List.filter_append, hN, hwk]
    · by_cases hN : cb = .Py_None <;> cases hwk : w.h.weakreflist <;>
        simp [uncaught_reports, List.filter_append, hN, hwk]
    · by_cases hN : cb = .Py_None <;> cases hwk : w.h.weakreflist <;> simp [hN, hwk, hrc]
    · by_cases hN : cb = .Py_None <;> cases hwk : w.h.weakreflist <;> simp [hN, hwk, hrc]
    · simp
    · simp [hlc, hd2]
    · simp [hs, hd1]
    · intro hN
      rcases callable_cases cb hcbv with rfl | ⟨n, rfl⟩
      · exact absurd rfl hN
      · simp [hd3]
  · refine ⟨_, _,
      on_handle_close_keep w cb l none hlive hdata hnf hrun hcb hcbv hl hrc,
      on_handle_close_keep w cb l (some r) hlive hdata hnf hrun hcb hcbv hl hrc,
      ?_, ?_, ?_, ?_, rfl, rfl, rfl, rfl, rfl, rfl, rfl, rfl, ?_, ?_, ?_, ?_⟩
    · by_cases hN : cb = .Py_None <;>
        simp [uncaught_reports, List.filter_append, hN]
    · by_cases hN : cb = .Py_None <;>
        simp [uncaught_reports, List.filter_append, hN]
    · by_cases hN : cb = .Py_None <;> simp [hN, hrc]
    · by_cases hN : cb = .Py_None <;> simp [hN, hrc]
    · simp
    · simp [hlc]
    · simp [hs]
    · intro hN
      rcases callable_cases cb hcbv with rfl | ⟨n, rfl⟩
      · exact absurd rfl hN
      · simp

/-- Witness for C7: the sample handle after `close(sample_cb)`, completion delivered. The
Loop's count is 2 on entry (the sample's own reference and the handle's), still 2 when the
handler is entered, and 1 on return. -/
theorem close_callback_exception_routed_witness :
    (sample_closing.h.on_close_cb = some sample_cb ∧ sample_closing.slot.closing = true ∧
      sample_closing.h.loop = some (.loop 0) ∧ sample_closing.ob_refcnt (.loop 0) = 2) ∧
    ∃ wa wb, on_handle_close sample_closing .slot none = .ok wa ∧
      on_handle_close sample_closing .slot (some .Py_None) = .ok wb ∧
      uncaught_reports wa = uncaught_reports sample_closing ++
        (if sample_cb = .Py_None then []
         else [.uncaught (some (.loop 0)) (sample_closing.ob_refcnt (.loop 0))]) ∧
      uncaught_reports wb = uncaught_reports sample_closing ∧
      wa.h = wb.h ∧ wa.ob_refcnt = wb.ob_refcnt ∧
      wa.ob_refcnt (.loop 0) = sample_closing.ob_refcnt (.loop 0) - 1 :=
  ⟨⟨rfl, rfl, rfl, by decide⟩,
    (close_callback_exception_routed sample_closing sample_cb 0 .Py_None
      rfl rfl rfl rfl rfl rfl rfl rfl (Or.inr rfl) rfl (by decide)).imp
      fun _ h => h.imp fun _ g =>
        ⟨g.1, g.2.1, g.2.2.1, g.2.2.2.1, g.2.2.2.2.2.2.1, g.2.2.2.2.2.2.2.1,
          g.2.2.2.2.2.2.2.2.2.2.2.2.2.2.2.1⟩⟩

/-- C8: `Handle_tp_dealloc` on an initialized handle that is not closing clears the slot's
back-reference, issues one `uv_close` with `on_handle_dealloc_close`, leaves the slot
unfreed, invokes no user callable and takes or drops no reference on the wrapper (no pin);
the reactor iteration delivering that completion changes nothing but the slot (no user
callable invoked, the wrapper's fields and every reference count untouched) and frees the
slot, once; later iterations do nothing. User callables are those entered through
`PyObject_CallFunctionObjArgs`. -/
theorem dealloc_active_implicit_close (w : World) (result r2 : Option PyObj)
    (hinit : w.h.initialized = true) (hptr : w.h.uv_handle = .slot)
    (hlive : w.slot_frees = 0) (hopen : w.slot.closing = false)
    (hself : w.h.on_close_cb ≠ some .self ∧ w.h.loop ≠ some .self ∧ w.h.dict ≠ some .self) :
    ∃ w1 w2, Handle_tp_dealloc w = .ok w1 ∧
      w1.slot.data = .NULL ∧
      w1.slot.close_cb = some .on_handle_dealloc_close ∧
      w1.trace = w.trace ++ [.uv_close .on_handle_dealloc_close]
        ++ (if w.h.weakreflist.isSome then [.clear_weakrefs] else []) ∧
      uv_close_requests w1 = uv_close_requests w + 1 ∧
      user_calls w1 = user_calls w ∧
      w1.ob_refcnt .self = w.ob_refcnt .self ∧
      w1.slot_frees = 0 ∧ w1.h_freed = true ∧
      uv_run_close w1 result = .ok w2 ∧
      w2 = { w1 with slot := { w1.slot with close_cb := none }, slot_frees := 1 } ∧
      w2.slot_frees = 1 ∧ user_calls w2 = user_calls w ∧
      w2.h = w1.h ∧ w2.ob_refcnt = w1.ob_refcnt ∧ w2.h_freed = w1.h_freed ∧
      uv_run_close w2 r2 = .ok w2 := by
  refine ⟨_, _, dealloc_exec_active w hinit hptr hlive hopen, rfl, rfl, rfl, ?_, ?_, ?_, hlive,
    rfl, uv_run_close_implicit _ result hlive rfl, ?_⟩
  · cases hwk : w.h.weakreflist <;> simp [uv_close_requests, List.countP_append, hwk]
  · cases hwk : w.h.weakreflist <;> simp [user_calls, List.filter_append, hwk]
  · simp [hself.1, hself.2.1, hself.2.2]
  · refine ⟨rfl, rfl, ?_, rfl, rfl, rfl, ?_⟩
    · cases hwk : w.h.weakreflist <;> simp [user_calls, List.filter_append, hwk]
    · simp [uv_run_close]

/-- Witness for C8: the sample handle reclaimed without `close`. -/
theorem dealloc_active_implicit_close_witness :
    (sample_active.h.initialized = true ∧ sample_active.slot.closing = false) ∧
    ∃ w1 w2, Handle_tp_dealloc sample_active = .ok w1 ∧
      w1.slot.data = .NULL ∧
      w1.slot.close_cb = some .on_handle_dealloc_close ∧
      w1.slot_frees = 0 ∧
      uv_run_close w1 none = .ok w2 ∧
      w2.slot_frees = 1 ∧ user_calls w2 = user_calls sample_active :=
  ⟨⟨rfl, rfl⟩,
    (dealloc_active_implicit_close sample_active none none rfl rfl rfl rfl
      (by decide)).imp
      fun _ h => h.imp fun _ g =>
        ⟨g.1, g.2.1, g.2.2.1, g.2.2.2.2.2.2.2.1, g.2.2.2.2.2.2.2.2.2.1,
          g.2.2.2.2.2.2.2.2.2.2.2.1, g.2.2.2.2.2.2.2.2.2.2.2.2.1⟩⟩

/-- C10 (fails on the code): a wrapper created by `Handle_tp_new` is uninitialized with a
NULL native pointer, and `Handle_tp_dealloc` on it does not run to completion: its
`ASSERT(self->uv_handle)` fails, and with assertions compiled out line 175 dereferences
the NULL pointer. With a native pointer to an allocated slot, in contrast,
`Handle_tp_dealloc` runs to completion in every state: the weak-reference list, the
attribute map, the Loop and the callback fields are cleared and the storage is freed. -/
theorem dealloc_of_fresh_handle_faults (env : World) :
    (∃ w0, Handle_tp_new env true = some w0 ∧
      w0.h.initialized = false ∧ w0.h.uv_handle = .NULL ∧
      Handle_tp_dealloc w0 =
        .error (if env.asserts then .assertion_failed else .null_deref)) ∧
    (∀ w : World, w.h.uv_handle = .slot → w.slot_frees = 0 →
      ∃ w', Handle_tp_dealloc w = .ok w' ∧ w'.h_freed = true ∧
        w'.h.weakreflist = none ∧ w'.h.dict = none ∧ w'.h.loop = none ∧
        w'.h.on_close_cb = none) := by
  refine ⟨⟨_, rfl, rfl, rfl, ?_⟩, ?_⟩
  · cases ha : env.asserts <;> simp [Handle_tp_dealloc, ASSERT, deref, ha]
  · intro w hptr hlive
    cases hinit : w.h.initialized with
    | false => exact ⟨_, dealloc_exec_uninit w hinit hptr hlive, rfl, rfl, rfl, rfl, rfl⟩
    | true =>
      cases hcl : w.slot.closing with
      | false => exact ⟨_, dealloc_exec_active w hinit hptr hlive hcl, rfl, rfl, rfl, rfl, rfl⟩
      | true => exact ⟨_, dealloc_exec_closing w hinit hptr hlive hcl, rfl, rfl, rfl, rfl, rfl⟩

/-! ## Lifecycle invariant: preservation -/

/-- The lifecycle phase depends only on what `World.agree` compares. -/
theorem lifeInv_of_agree (w w' : World) (n : Nat) (hag : w'.agree w) (h : LifeInv w n) :
    LifeInv w' n := by
  obtain ⟨h1, h2, h3, h4, h5, h6, h7, h8⟩ := hag
  simpa only [LifeInv, h1, h2, h3, h4, h5, h6, h7, h8] using h

/-- Every method and getter fails on an uninitialized handle, changing nothing. -/
theorem exec_uninit (w : World) (op : Op) (hinit : w.h.initialized = false) :
    op.exec w = .ok (.raised .NotInitializedError, w) := by
  cases op <;>
  simp [Op.exec, Handle_func_close, Handle_func_ref, Handle_func_unref, Handle_active_get,
    Handle_closed_get, RAISE_IF_HANDLE_NOT_INITIALIZED, hinit]

/-- A world agrees with itself. -/
theorem agree_refl (w : World) : w.agree w :=
  ⟨rfl, rfl, rfl, rfl, rfl, rfl, rfl, rfl⟩

/-- On a closing handle no method or getter crashes or changes the lifecycle phase. -/
theorem exec_closing (w : World) (op : Op)
    (hinit : w.h.initialized = true) (hptr : w.h.uv_handle = .slot)
    (hlive : w.slot_frees = 0) (hcl : w.slot.closing = true) :
    ∃ r w', op.exec w = .ok (r, w') ∧ w'.agree w := by
  cases op with
  | close args =>
    refine ⟨.raised .HandleClosedError, w, ?_, agree_refl w⟩
    simp [Op.exec, Handle_func_close, RAISE_IF_HANDLE_NOT_INITIALIZED,
      RAISE_IF_HANDLE_CLOSED, uv_is_closing, deref, hinit, hptr, hlive, hcl]
  | ref =>
    refine ⟨.raised .HandleClosedError, w, ?_, agree_refl w⟩
    simp [Op.exec, Handle_func_ref, RAISE_IF_HANDLE_NOT_INITIALIZED,
      RAISE_IF_HANDLE_CLOSED, uv_is_closing, deref, hinit, hptr, hlive, hcl]
  | unref =>
    refine ⟨.raised .HandleClosedError, w, ?_, agree_refl w⟩
    simp [Op.exec, Handle_func_unref, RAISE_IF_HANDLE_NOT_INITIALIZED,
      RAISE_IF_HANDLE_CLOSED, uv_is_closing, deref, hinit, hptr, hlive, hcl]
  | active_get =>
    refine ⟨.returned (.Py_Bool w.slot.active), Py_INCREF w (.Py_Bool w.slot.active), ?_, ?_⟩
    · simp [Op.exec, Handle_active_get, RAISE_IF_HANDLE_NOT_INITIALIZED, uv_is_active, deref,
        hinit, hptr, hlive, PyBool_FromLong]
    · simp [World.agree, Py_INCREF]
  | closed_get =>
    refine ⟨.returned (.Py_Bool w.slot.closing), Py_INCREF w (.Py_Bool w.slot.closing), ?_, ?_⟩
    · simp [Op.exec, Handle_closed_get, RAISE_IF_HANDLE_NOT_INITIALIZED, uv_is_closing, deref,
        hinit, hptr, hlive, PyBool_FromLong]
    · simp [World.agree, Py_INCREF]

/-- On an active handle no method or getter crashes; the lifecycle phase changes only by a
successful `close`. -/
theorem exec_active (w : World) (op : Op)
    (hinit : w.h.initialized = true) (hptr : w.h.uv_handle = .slot)
    (hlive : w.slot_frees = 0) (hopen : w.slot.closing = false) :
    ∃ r w', op.exec w = .ok (r, w') ∧
      (w'.agree w ∨
        ∃ cb, (cb = .Py_None ∨ PyCallable_Check cb = true) ∧
          w'.h = { w.h with on_close_cb := some cb } ∧ w'.h_freed = w.h_freed ∧
          w'.slot.data = w.slot.data ∧ w'.slot.closing = true ∧
          w'.slot.close_cb = some .on_handle_close ∧ w'.slot_frees = w.slot_frees ∧
          w'.ob_refcnt .self = w.ob_refcnt .self + 1 ∧ w'.cb_running = w.cb_running) := by
  cases op with
  | close args =>
    cases hp : PyArg_ParseTuple_optO args .Py_None with
    | none =>
      refine ⟨.raised .TypeError, w, ?_, Or.inl (agree_refl w)⟩
      simp [Op.exec, Handle_func_close, RAISE_IF_HANDLE_NOT_INITIALIZED,
        RAISE_IF_HANDLE_CLOSED, uv_is_closing, deref, hinit, hptr, hlive, hopen, hp]
    | some cb =>
      by_cases hv : cb = .Py_None ∨ PyCallable_Check cb = true
      · have hs : ¬ PyObj.self = cb := by
          rcases callable_cases cb hv with rfl | ⟨n, rfl⟩ <;> simp
        refine ⟨_, _, close_exec w args cb hinit hptr hlive hopen hp hv, Or.inr ⟨cb, hv, rfl,
          rfl, rfl, rfl, rfl, rfl, ?_, rfl⟩⟩
        simp [hs]
      · push_neg at hv
        refine ⟨.raised .TypeError, w, ?_, Or.inl (agree_refl w)⟩
        simp [Op.exec, Handle_func_close, RAISE_IF_HANDLE_NOT_INITIALIZED,
          RAISE_IF_HANDLE_CLOSED, uv_is_closing, deref, hinit, hptr, hlive, hopen, hp, hv.1,
          hv.2]
  | ref =>
    refine ⟨.returned .Py_None,
      Py_INCREF { w with slot := { w.slot with referenced := true },
                         trace := w.trace ++ [.uv_ref] } .Py_None, ?_, Or.inl ?_⟩
    · simp [Op.exec, Handle_func_ref, RAISE_IF_HANDLE_NOT_INITIALIZED,
        RAISE_IF_HANDLE_CLOSED, uv_is_closing, uv_ref, deref, hinit, hptr, hlive, hopen,
        Py_RETURN_NONE]
    · simp [World.agree, Py_INCREF]
  | unref =>
    refine ⟨.returned .Py_None,
      Py_INCREF { w with slot := { w.slot with referenced := false },
                         trace := w.trace ++ [.uv_unref] } .Py_None, ?_, Or.inl ?_⟩
    · simp [Op.exec, Handle_func_unref, RAISE_IF_HANDLE_NOT_INITIALIZED,
        RAISE_IF_HANDLE_CLOSED, uv_is_closing, uv_unref, deref, hinit, hptr, hlive, hopen,
        Py_RETURN_NONE]
    · simp [World.agree, Py_INCREF]
  | active_get =>
    refine ⟨.returned (.Py_Bool w.slot.active), Py_INCREF w (.Py_Bool w.slot.active), ?_,
      Or.inl ?_⟩
    · simp [Op.exec, Handle_active_get, RAISE_IF_HANDLE_NOT_INITIALIZED, uv_is_active, deref,
        hinit, hptr, hlive, PyBool_FromLong]
    · simp [World.agree, Py_INCREF]
  | closed_get =>
    refine ⟨.returned (.Py_Bool w.slot.closing), Py_INCREF w (.Py_Bool w.slot.closing), ?_,
      Or.inl ?_⟩
    · simp [Op.exec, Handle_closed_get, RAISE_IF_HANDLE_NOT_INITIALIZED, uv_is_closing, deref,
        hinit, hptr, hlive, PyBool_FromLong]
    · simp [World.agree, Py_INCREF]

/-- Running `Handle_tp_dealloc` with a NULL native pointer crashes. -/
theorem dealloc_null (w : World) (hptr : w.h.uv_handle = .NULL) :
    Handle_tp_dealloc w = .error (if w.asserts then .assertion_failed else .null_deref) := by
  cases ha : w.asserts <;> simp [Handle_tp_dealloc, ASSERT, deref, ha, hptr]

/-- The concrete kind's setup leads from the created phase to the active phase. -/
theorem lifeInv_kind_init (w : World) (n l : Nat) (h : LifeInv w n)
    (hnf : w.h_freed = false) (hinit : w.h.initialized = false) :
    LifeInv (kind_init w (.loop l)) n := by
  rcases h with h | h | h | h | h | h
  · obtain ⟨hf, hfr, hi, hp, hl, hc, hr, hn, hrc⟩ := h
    right; left
    simp [kind_init, initialize_handle, Py_INCREF, Py_XDECREF, hl, hf, hfr, hr, hn, hrc]
  · simp [h.2.2.1] at hinit
  · simp [h.2.2.1] at hinit
  · simp [h.2.2.1] at hinit
  · simp [h.1] at hnf
  · simp [h.1] at hnf

/-- Application code taking one more reference. -/
theorem lifeInv_incref (w : World) (n : Nat) (h : LifeInv w n) (hnf : w.h_freed = false) :
    LifeInv (Py_INCREF w .self) (n + 1) := by
  rcases h with h | h | h | h | h | h
  · obtain ⟨hf, hfr, hi, hp, hl, hc, hr, hn, hrc⟩ := h
    left
    simp [Py_INCREF, hf, hfr, hi, hp, hl, hc, hr, hrc]
  · obtain ⟨hf, hfr, hi, hp, hd, hcl, hc, hr, hn, hrc, hl⟩ := h
    right; left
    simp [Py_INCREF, hf, hfr, hi, hp, hd, hcl, hc, hr, hrc, hl]
  · obtain ⟨hf, hfr, hi, hp, hd, hcl, hc, hrc, hcb, hl⟩ := h
    right; right; left
    simp [Py_INCREF, hf, hfr, hi, hp, hd, hcl, hc, hrc, hcb, hl]
  · obtain ⟨hf, hfr, hi, hp, hcl, hc, hr, hn, hrc⟩ := h
    right; right; right; left
    simp [Py_INCREF, hf, hfr, hi, hp, hcl, hc, hr, hrc]
  · simp [h.1] at hnf
  · simp [h.1] at hnf

/-- Application code dropping one of its references: the step succeeds and keeps the
invariant, except on a never-initialized wrapper whose last reference goes, where
`Handle_tp_dealloc` crashes. -/
theorem lifeInv_decref (w : World) (n : Nat) (h : LifeInv w n) (hnf : w.h_freed = false)
    (hn : 0 < n) :
    (∃ w', Py_DECREF_self w = .ok w' ∧ LifeInv w' (n - 1)) ∨
    (w.h.initialized = false ∧ ∃ f, Py_DECREF_self w = .error f) := by
  rcases h with h | h | h | h | h | h
  · obtain ⟨hf, hfr, hi, hp, hl, hc, hr, hn1, hrc⟩ := h
    by_cases h1 : n = 1
    · right
      refine ⟨hi, if w.asserts then .assertion_failed else .null_deref, ?_⟩
      rw [Py_DECREF_self_last w (by rw [hrc, h1]; rfl),
        dealloc_null { w with ob_refcnt := fun x => w.ob_refcnt x - (if x = .self then 1 else 0) } hp]
    · left
      refine ⟨_, Py_DECREF_self_keep w (by rw [hrc]; omega), Or.inl ?_⟩
      refine ⟨hf, hfr, hi, hp, hl, hc, hr, by omega, ?_⟩
      simp [hrc]
      omega
  · obtain ⟨hf, hfr, hi, hp, hd, hcl, hc, hr, hn1, hrc, hl⟩ := h
    left
    by_cases h1 : n = 1
    · have hX := (Py_DECREF_self_last w (by rw [hrc, h1]; rfl)).trans
        (dealloc_exec_active
          { w with ob_refcnt := fun x => w.ob_refcnt x - (if x = .self then 1 else 0) }
          hi hp hfr hcl)
      exact ⟨_, hX, Or.inr (Or.inr (Or.inr (Or.inr (Or.inl ⟨rfl, hfr, rfl, hr, by omega⟩))))⟩
    · refine ⟨_, Py_DECREF_self_keep w (by rw [hrc]; omega), Or.inr (Or.inl ?_)⟩
      refine ⟨hf, hfr, hi, hp, hd, hcl, hc, hr, by omega, ?_, hl⟩
      simp [hrc]
      omega
  · obtain ⟨hf, hfr, hi, hp, hd, hcl, hc, hrc, hcb, hl⟩ := h
    left
    refine ⟨_, Py_DECREF_self_keep w (by rw [hrc]; omega), Or.inr (Or.inr (Or.inl ?_))⟩
    refine ⟨hf, hfr, hi, hp, hd, hcl, hc, ?_, hcb, hl⟩
    simp [hrc]
    omega
  · obtain ⟨hf, hfr, hi, hp, hcl, hc, hr, hn1, hrc⟩ := h
    left
    by_cases h1 : n = 1
    · have hX := (Py_DECREF_self_last w (by rw [hrc, h1]; rfl)).trans
        (dealloc_exec_closing
          { w with ob_refcnt := fun x => w.ob_refcnt x - (if x = .self then 1 else 0) }
          hi hp hfr hcl)
      exact ⟨_, hX, Or.inr (Or.inr (Or.inr (Or.inr (Or.inr ⟨rfl, rfl, hc, hr, by omega⟩))))⟩
    · refine ⟨_, Py_DECREF_self_keep w (by rw [hrc]; omega),
        Or.inr (Or.inr (Or.inr (Or.inl ?_)))⟩
      refine ⟨hf, hfr, hi, hp, hcl, hc, hr, by omega, ?_⟩
      simp [hrc]
      omega
  · simp [h.1] at hnf
  · simp [h.1] at hnf

/-- A method or getter call on a live wrapper never crashes and keeps the invariant. -/
theorem lifeInv_call (w : World) (n : Nat) (op : Op) (h : LifeInv w n)
    (hnf : w.h_freed = false) :
    ∃ r w', op.exec w = .ok (r, w') ∧ LifeInv w' n := by
  rcases h with h | h | h | h | h | h
  · exact ⟨_, w, exec_uninit w op h.2.2.1, Or.inl h⟩
  · obtain ⟨hf, hfr, hi, hp, hd, hcl, hc, hr, hn1, hrc, hl⟩ := h
    obtain ⟨r1, w1, he, hcase⟩ := exec_active w op hi hp hfr hcl
    refine ⟨r1, w1, he, ?_⟩
    rcases hcase with hag | ⟨cb, hv, e1, e2, e3, e4, e5, e6, e7, e8⟩
    · exact lifeInv_of_agree w w1 n hag (Or.inr (Or.inl
        ⟨hf, hfr, hi, hp, hd, hcl, hc, hr, hn1, hrc, hl⟩))
    · right; right; left
      refine ⟨by rw [e2, hf], by rw [e6, hfr], by rw [e1]; exact hi, by rw [e1]; exact hp,
        by rw [e3, hd], e4, Or.inl ⟨e5, by rw [e8, hr]⟩, by rw [e7, hrc],
        ⟨cb, by rw [e1], hv⟩, ?_⟩
      obtain ⟨l, hl⟩ := hl
      exact ⟨l, by rw [e1]; exact hl⟩
  · obtain ⟨hf, hfr, hi, hp, hd, hcl, hc, hrc, hcb, hl⟩ := h
    obtain ⟨r1, w1, he, hag⟩ := exec_closing w op hi hp hfr hcl
    exact ⟨r1, w1, he, lifeInv_of_agree w w1 n hag (Or.inr (Or.inr (Or.inl
      ⟨hf, hfr, hi, hp, hd, hcl, hc, hrc, hcb, hl⟩)))⟩
  · obtain ⟨hf, hfr, hi, hp, hcl, hc, hr, hn1, hrc⟩ := h
    obtain ⟨r1, w1, he, hag⟩ := exec_closing w op hi hp hfr hcl
    exact ⟨r1, w1, he, lifeInv_of_agree w w1 n hag (Or.inr (Or.inr (Or.inr (Or.inl
      ⟨hf, hfr, hi, hp, hcl, hc, hr, hn1, hrc⟩))))⟩
  · simp [h.1] at hnf
  · simp [h.1] at hnf

/-- The user's callback returning into `on_handle_close`, or `on_handle_close` running
through when the callback is `None`: it returns, and the handle ends closed, or reclaimed
with its slot freed when the pin was the last reference. -/
theorem lifeInv_leave (w : World) (n : Nat) (result : Option PyObj)
    (hf : w.h_freed = false) (hfr : w.slot_frees = 0) (hi : w.h.initialized = true)
    (hp : w.h.uv_handle = .slot) (hcl : w.slot.closing = true) (hc : w.slot.close_cb = none)
    (hrc : w.ob_refcnt .self = n + 1)
    (hcb : ∃ cb, w.h.on_close_cb = some cb ∧ (cb = .Py_None ∨ PyCallable_Check cb = true))
    (hl : ∃ l, w.h.loop = some (.loop l)) :
    ∃ w', on_handle_close_leave w result = .ok w' ∧ LifeInv w' n := by
  obtain ⟨cb, hcb, hv⟩ := hcb
  obtain ⟨l, hl⟩ := hl
  by_cases h0 : n = 0
  · refine ⟨_, leave_exec_dealloc w cb l result hcb hv hl (by rw [hrc, h0]; rfl) hi hp hfr hcl,
      Or.inr (Or.inr (Or.inr (Or.inr (Or.inr ⟨rfl, rfl, hc, rfl, h0⟩))))⟩
  · have hs : ¬ PyObj.self = cb := by
      rcases callable_cases cb hv with rfl | ⟨n, rfl⟩ <;> simp
    refine ⟨_, leave_exec_keep w cb l result hcb hv hl (by rw [hrc]; omega),
      Or.inr (Or.inr (Or.inr (Or.inl ⟨hf, hfr, hi, hp, hcl, hc, rfl, by omega, ?_⟩)))⟩
    simp [hrc, hs]

/-- A successful step from a state that has not crashed. -/
theorem sysInv_settle_ok (s : Sys) (r : Except Fault World) (w' : World) (n : Nat)
    (hc : s.crashed = none) (hr : r = .ok w') (h : LifeInv w' n) : SysInv (s.settle r n) := by
  subst hr
  exact ⟨h, fun hne => absurd hc hne⟩

/-- The reactor starting to deliver a pending completion. -/
theorem sysInv_reactor (s : Sys) (h : LifeInv s.w s.app_refs) (hc : s.crashed = none) :
    SysInv (s.step .reactor) := by
  have hkeep : ∀ t : Sys, t = s → SysInv t := fun t ht => ht ▸ ⟨h, fun hne => absurd hc hne⟩
  rcases h with h | h | h | h | h | h
  · exact hkeep _ (by simp [Sys.step, hc, h.2.2.2.2.2.1])
  · exact hkeep _ (by simp [Sys.step, hc, h.2.2.2.2.2.2.1])
  · obtain ⟨hf, hfr, hi, hp, hd, hcl, hpend, hrc, ⟨cb, hcb, hv⟩, ⟨l, hl⟩⟩ := h
    rcases hpend with ⟨hsome, hr⟩ | ⟨hnone, hr⟩
    · have hent := enter_exec { s.w with slot := { s.w.slot with close_cb := none } } cb
        hfr hd hf hcb
      by_cases hN : cb = .Py_None
      · simp only [hN, if_true, hfr, hr] at hent
        have hstep : s.step .reactor =
            s.settle (on_handle_close_leave
              { s.w with slot := { s.w.slot with close_cb := none } } none) s.app_refs := by
          simp [Sys.step, hc, hr, hsome, deref, hfr, hent]
        rw [hstep]
        obtain ⟨w', hw', hI⟩ :=
          lifeInv_leave { s.w with slot := { s.w.slot with close_cb := none } }
            s.app_refs none hf hfr hi hp hcl rfl hrc ⟨cb, hcb, hv⟩ ⟨l, hl⟩
        exact sysInv_settle_ok s _ w' _ hc hw' hI
      · simp only [hN, if_false, hfr, hr] at hent
        have hstep : s.step .reactor =
            { s with w := { s.w with
                slot := { s.w.slot with close_cb := none },
                trace := s.w.trace ++ [.call cb [.self]],
                cb_running := true } } := by
          simp [Sys.step, hc, hr, hsome, deref, hfr, hent]
        rw [hstep]
        exact ⟨Or.inr (Or.inr (Or.inl ⟨hf, hfr, hi, hp, hd, hcl, Or.inr ⟨rfl, rfl⟩, hrc,
          ⟨cb, hcb, hv⟩, ⟨l, hl⟩⟩)), fun hne => absurd hc hne⟩
    · exact hkeep _ (by simp [Sys.step, hc, hr])
  · exact hkeep _ (by simp [Sys.step, hc, h.2.2.2.2.2.1])
  · obtain ⟨hf, hfr, hsome, hr, hn⟩ := h
    have hstep : s.step .reactor =
        { s with w := { s.w with slot := { s.w.slot with close_cb := none },
                                 slot_frees := 1 } } := by
      simp [Sys.step, hc, hr, hsome, deref, hfr, on_handle_dealloc_close, free_handle, ASSERT,
        PyMem_Free, Sys.settle]
    rw [hstep]
    exact ⟨Or.inr (Or.inr (Or.inr (Or.inr (Or.inr ⟨hf, rfl, rfl, hr, hn⟩)))),
      fun hne => absurd hc hne⟩
  · exact hkeep _ (by simp [Sys.step, hc, h.2.2.1])

/-- Every lifecycle step preserves the invariant, and crashes only by deallocating a
never-initialized wrapper. -/
theorem sysInv_step (s : Sys) (a : Act) (hS : SysInv s) : SysInv (s.step a) := by
  obtain ⟨h, hcr⟩ := hS
  have hkeep : ∀ t : Sys, t = s → SysInv t := fun t ht => ht ▸ ⟨h, hcr⟩
  cases hc : s.crashed with
  | some f => exact hkeep _ (by simp [Sys.step, hc])
  | none =>
    have hok : ∀ t : Sys, t.crashed = none → LifeInv t.w t.app_refs → SysInv t :=
      fun t ht hI => ⟨hI, fun hne => absurd ht hne⟩
    cases a with
    | kind_init l =>
      by_cases hg : (s.app_can_reach && !s.w.h.initialized && s.w.h.uv_handle == .NULL) = true
      · have hstep : s.step (.kind_init l) = { s with w := kind_init s.w (.loop l) } := by
          simp [Sys.step, hc, hg]
        rw [hstep]
        simp [Sys.app_can_reach] at hg
        exact hok _ hc (lifeInv_kind_init s.w s.app_refs l h hg.1.1.1 hg.1.2)
      · exact hkeep _ (by simp [Sys.step, hc, hg])
    | app_incref =>
      by_cases hg : s.app_can_reach = true
      · have hstep : s.step .app_incref =
            { s with w := Py_INCREF s.w .self, app_refs := s.app_refs + 1 } := by
          simp [Sys.step, hc, hg]
        rw [hstep]
        simp [Sys.app_can_reach] at hg
        exact hok _ hc (lifeInv_incref s.w s.app_refs h hg.1)
      · exact hkeep _ (by simp [Sys.step, hc, hg])
    | app_decref =>
      by_cases hg : (!s.w.h_freed && decide (0 < s.app_refs)) = true
      · have hstep : s.step .app_decref = s.settle (Py_DECREF_self s.w) (s.app_refs - 1) := by
          simp [Sys.step, hc, hg]
        rw [hstep]
        simp at hg
        rcases lifeInv_decref s.w s.app_refs h hg.1 hg.2 with ⟨w', hw', hI⟩ | ⟨hi, f, hf⟩
        · exact sysInv_settle_ok s _ w' _ hc hw' hI
        · rw [hf]
          exact ⟨h, fun _ => hi⟩
      · exact hkeep _ (by simp [Sys.step, hc, hg])
    | call op =>
      by_cases hg : s.app_can_reach = true
      · have hnf : s.w.h_freed = false := by
          simp [Sys.app_can_reach] at hg
          exact hg.1
        obtain ⟨r, w1, he, hI⟩ := lifeInv_call s.w s.app_refs op h hnf
        have hstep : s.step (.call op) = { s with w := w1 } := by
          simp [Sys.step, hc, hg, he]
        rw [hstep]
        exact hok _ hc hI
      · exact hkeep _ (by simp [Sys.step, hc, hg])
    | reactor => exact sysInv_reactor s h hc
    | cb_return result =>
      by_cases hg : s.w.cb_running = true
      · have hstep : s.step (.cb_return result) =
            s.settle (on_handle_close_leave s.w result) s.app_refs := by
          simp [Sys.step, hc, hg]
        rw [hstep]
        rcases h with h | h | h | h | h | h
        · simp [h.2.2.2.2.2.2.1] at hg
        · simp [h.2.2.2.2.2.2.2.1] at hg
        · obtain ⟨hf, hfr, hi, hp, hd, hcl, hpend, hrc, hcb, hl⟩ := h
          rcases hpend with ⟨hsome, hr⟩ | ⟨hnone, hr⟩
          · simp [hr] at hg
          · obtain ⟨w', hw', hI⟩ :=
              lifeInv_leave s.w s.app_refs result hf hfr hi hp hcl hnone hrc hcb hl
            exact sysInv_settle_ok s _ w' _ hc hw' hI
        · simp [h.2.2.2.2.2.2.1] at hg
        · simp [h.2.2.2.1] at hg
        · simp [h.2.2.2.1] at hg
      · exact hkeep _ (by simp [Sys.step, hc, hg])

/-- Every run of lifecycle steps preserves the invariant. -/
theorem sysInv_run (acts : List Act) (s : Sys) (h : SysInv s) : SysInv (s.run acts) := by
  induction acts generalizing s with
  | nil => exact h
  | cons a as ih => exact ih (s.step a) (sysInv_step s a h)

/-- The invariant holds when `Handle_tp_new` has just returned the wrapper. -/
theorem sysInv_init (asserts : Bool) (rc : PyObj → Int) : SysInv (Sys.init asserts rc) := by
  refine ⟨Or.inl ?_, fun hne => absurd rfl hne⟩
  simp [Sys.init, Handle_tp_new, World.boot]

/-- C9: in every state reached from `Handle_tp_new` by lifecycle steps (the kind's setup,
application code taking and dropping its references, method and getter calls, the reactor
delivering a completion, the user's callback returning; deallocation when the count
reaches zero), while a `close()` request is outstanding, the user's callback possibly
running, the wrapper's count is at least one, the wrapper has not been deallocated and the
slot has not been freed; the slot is never freed while any completion is still registered;
the slot is freed at most once; and no run crashes once the handle is initialized (so no
step touches freed memory). -/
theorem pinned_while_close_outstanding (asserts : Bool) (rc : PyObj → Int) (acts : List Act) :
    (((Sys.init asserts rc).run acts).w.close_outstanding = true →
      1 ≤ ((Sys.init asserts rc).run acts).w.ob_refcnt .self ∧
      ((Sys.init asserts rc).run acts).w.h_freed = false ∧
      ((Sys.init asserts rc).run acts).w.slot_frees = 0) ∧
    (((Sys.init asserts rc).run acts).w.slot.close_cb ≠ none →
      ((Sys.init asserts rc).run acts).w.slot_frees = 0) ∧
    ((Sys.init asserts rc).run acts).w.slot_frees ≤ 1 ∧
    (((Sys.init asserts rc).run acts).crashed ≠ none →
      ((Sys.init asserts rc).run acts).w.h.initialized = false) := by
  have h := sysInv_run acts (Sys.init asserts rc) (sysInv_init asserts rc)
  generalize (Sys.init asserts rc).run acts = s at h
  obtain ⟨h, hcr⟩ := h
  refine ⟨?_, ?_, ?_, hcr⟩
  · intro hout
    rcases h with h | h | h | h | h | h
    · simp [World.close_outstanding, h.2.2.2.2.2.1, h.2.2.2.2.2.2.1] at hout
    · simp [World.close_outstanding, h.2.2.2.2.2.2.1, h.2.2.2.2.2.2.2.1] at hout
    · obtain ⟨hf, hfr, hi, hp, hd, hcl, hpend, hrc, hcb, hl⟩ := h
      exact ⟨by rw [hrc]; omega, hf, hfr⟩
    · simp [World.close_outstanding, h.2.2.2.2.2.1, h.2.2.2.2.2.2.1] at hout
    · simp [World.close_outstanding, h.2.2.1, h.2.2.2.1] at hout
    · simp [World.close_outstanding, h.2.2.1, h.2.2.2.1] at hout
  · intro hne
    rcases h with h | h | h | h | h | h
    · exact h.2.1
    · exact h.2.1
    · exact h.2.1
    · exact h.2.1
    · exact h.2.1
    · exact absurd h.2.2.1 hne
  · rcases h with h | h | h | h | h | h
    · rw [h.2.1]; omega
    · rw [h.2.1]; omega
    · rw [h.2.1]; omega
    · rw [h.2.1]; omega
    · rw [h.2.1]; omega
    · rw [h.2.1]

/-- Witness run for C9: setup on loop 0, `close(sample_cb)`, application code drops its only
reference, the reactor enters the callback: the pin is the one reference left. -/
theorem pinned_while_close_outstanding_witness :
    ((Sys.init true fun _ => 1).run
        [.kind_init 0, .call (.close [sample_cb]), .app_decref, .reactor]).w.close_outstanding
      = true ∧
    1 ≤ ((Sys.init true fun _ => 1).run
        [.kind_init 0, .call (.close [sample_cb]), .app_decref, .reactor]).w.ob_refcnt .self ∧
    ((Sys.init true fun _ => 1).run
        [.kind_init 0, .call (.close [sample_cb]), .app_decref, .reactor]).w.h_freed = false ∧
    ((Sys.init true fun _ => 1).run
        [.kind_init 0, .call (.close [sample_cb]), .app_decref, .reactor]).w.slot_frees = 0 :=
  ⟨rfl, (pinned_while_close_outstanding true (fun _ => 1)
      [.kind_init 0, .call (.close [sample_cb]), .app_decref, .reactor]).1 rfl⟩

end Pyuv
